import Mathlib

/-!
Verification of the financial calculation engine and QA/rerun orchestration of
the `astock_report` package (a stock-report generation pipeline).

The Python sources are shallowly embedded:
* Python `float` values flowing through the calculators are modelled by
  `PyFloat`: either NaN, ±infinity, an exact rational, or (for CAGR results
  only) the symbolic real `base ^ (1/years) - 1`.  Every arithmetic operation
  performed by the embedded code on such values is exact rational arithmetic
  in the source (sums, products, integer powers, guarded division), so the
  rational model is faithful.
* Fallible code (statement deduplication, which can hit a Python `TypeError`
  when comparing `None` announcement dates, and the final dataclass
  construction of the valuation engine) is embedded with `Except String`.
* Statement periods are calendar dates with the lexicographic order; the
  Python rendering `str(date)` is injective on dates, so keying a dict by `str(period)` is
  modelled by keying on the date itself.
-/

/-- Model of the Python floats produced by the calculation engine.

`nan` is `float("nan")`; `val q` is a finite float (the arithmetic of the engine on
the values the claims touch is exact: sums, differences, products, integer
powers and guarded division of finite inputs); `inf`/`ninf` arise only from
pandas `pct_change` against a zero base; `pow base years` is the real number
`base ^ (1/years) - 1` produced by `_cagr_from_df` (kept symbolic because real
exponentiation is not rational; when `years = 1` the value is the rational
`base - 1` and is normalised to `val`). -/
inductive PyFloat where
  | nan : PyFloat
  | inf : PyFloat
  | ninf : PyFloat
  | val : ℚ → PyFloat
  | pow : ℚ → ℕ → PyFloat
deriving DecidableEq, Repr

namespace PyFloat

/-- Model of `np.isnan` / `pd.isna` on a float. -/
def isNan : PyFloat → Bool
  | nan => true
  | _ => false

/-- Python `x == 0.0` (NaN and infinities compare unequal to zero). -/
def isZero : PyFloat → Bool
  | val q => q == 0
  | _ => false

/-- Python `abs` on a float (`abs(nan) = nan`). -/
def pabs : PyFloat → PyFloat
  | val q => val |q|
  | nan => nan
  | inf => inf
  | ninf => inf
  | pow b y => pow b y

/-- Addition with NaN propagation (only finite/NaN values reach `+` in the
embedded code, so the infinite/symbolic cases default to NaN). -/
def padd : PyFloat → PyFloat → PyFloat
  | val a, val b => val (a + b)
  | _, _ => nan

/-- Subtraction with NaN propagation. -/
def psub : PyFloat → PyFloat → PyFloat
  | val a, val b => val (a - b)
  | _, _ => nan

/-- Multiplication with NaN propagation. -/
def pmul : PyFloat → PyFloat → PyFloat
  | val a, val b => val (a * b)
  | _, _ => nan

/-- Python `a > b` on floats restricted to the values the engine compares
(NaN compares false against everything). -/
def pgt : PyFloat → PyFloat → Bool
  | val a, val b => b < a
  | _, _ => false

/-- Python `a <= b` on floats (false when either side is NaN). -/
def ple : PyFloat → PyFloat → Bool
  | val a, val b => a ≤ b
  | _, _ => false

/-- The `x if not np.isnan(x) else 0.0` idiom. -/
def orZero : PyFloat → PyFloat
  | nan => val 0
  | f => f

/-- Extract the rational value of a finite float, defaulting (used only where
the source has already guarded against NaN). -/
def toQ : PyFloat → ℚ
  | val q => q
  | _ => 0

end PyFloat

open PyFloat (nan val)

/-- Model of `_to_float(value)` applied to an optional metric value: `None` (an absent
metric) becomes NaN, a finite float passes through. -/
def toFloatOpt : Option ℚ → PyFloat
  | none => PyFloat.nan
  | some q => PyFloat.val q

/-- A calendar date (`datetime.date`), ordered lexicographically. -/
structure Date where
  y : ℤ
  m : ℕ
  d : ℕ
deriving DecidableEq, Repr

namespace Date

/-- Python `a <= b` on dates. -/
def le (a b : Date) : Bool :=
  a.y < b.y || (a.y == b.y && (a.m < b.m || (a.m == b.m && a.d ≤ b.d)))

/-- Python `a >= b` on dates. -/
def ge (a b : Date) : Bool := le b a

/-- The value `datetime.min.date()`, the minimum representable date. -/
def min : Date := ⟨1, 1, 1⟩

/-- Python `str(date)` is injective on dates; the model uses an ISO-like rendering. -/
def toStr (a : Date) : String := s!"{a.y}-{a.m}-{a.d}"

end Date

/-- The `FinancialStatement` dataclass: a normalized statement for a single period
(`astock_report.domain.models.financials`).  Metric values are finite floats;
a missing metric is an absent key. -/
structure FinancialStatement where
  ticker : String
  period : Date
  statement_type : String
  metrics : List (String × ℚ) := []
  frequency : Option String := none
  update_flag : Option ℤ := none
  announced_date : Option Date := none
deriving DecidableEq, Repr

/-- The `FinancialDataset` dataclass: the three statement sequences used by the calculators. -/
structure FinancialDataset where
  ticker : String
  income_statements : List FinancialStatement := []
  balance_sheets : List FinancialStatement := []
  cash_flows : List FinancialStatement := []
deriving DecidableEq, Repr

/-- Completeness check `FinancialDataset.is_complete`: all three sequences non-empty. -/
def FinancialDataset.isComplete (d : FinancialDataset) : Bool :=
  !d.income_statements.isEmpty && !d.balance_sheets.isEmpty && !d.cash_flows.isEmpty

/-- The `GrowthCurve` domain model. -/
structure GrowthCurve where
  metrics : List (String × PyFloat)
  commentary : Option String := none
deriving DecidableEq, Repr

/-- The `RatioSummary` domain model. -/
structure RatioSummary where
  ratios : List (String × PyFloat)
  metadata : List (String × String) := []
deriving DecidableEq, Repr

/-- Helper `_flag_value(flag)`: missing update flag treated as 0. -/
def flagValue : Option ℤ → ℤ
  | none => 0
  | some f => f

/-- Python `ann >= prev_ann` on optional dates: comparing `None` with anything
(including `None`) raises `TypeError`. -/
def annGe : Option Date → Option Date → Except String Bool
  | some a, some b => .ok (a.ge b)
  | _, _ => .error "TypeError: \x27>=\x27 not supported between instances of NoneType and date"

/-- One step of the dict fold of `_dedup_statements`: insert statement `s` into the
association list `best` keyed by period (Python keys by `str(period)`, which is
injective on dates).  The stored statement is replaced when
`flag > prev_flag or (flag == prev_flag and ann >= prev_ann)`; the
announcement-date comparison is only evaluated when the flags are equal
(the Python short-circuit), and raises on `None`. -/
def dedupInsert (best : List (Date × FinancialStatement)) (s : FinancialStatement) :
    Except String (List (Date × FinancialStatement)) :=
  match best with
  | [] => .ok [(s.period, s)]
  | (k, prev) :: rest =>
    if k = s.period then
      let flag := flagValue s.update_flag
      let prevFlag := flagValue prev.update_flag
      if flag > prevFlag then
        .ok ((k, s) :: rest)
      else if flag = prevFlag then do
        let geAnn ← annGe s.announced_date prev.announced_date
        if geAnn then .ok ((k, s) :: rest) else .ok ((k, prev) :: rest)
      else
        .ok ((k, prev) :: rest)
    else do
      let rest' ← dedupInsert rest s
      .ok ((k, prev) :: rest')

/-- Function `_dedup_statements` (calculations.py): fold all statements through the
period-keyed dict, then sort the surviving statements ascending by period. -/
def dedupStatements (statements : List FinancialStatement) :
    Except String (List FinancialStatement) := do
  let best ← statements.foldlM dedupInsert []
  .ok ((best.map Prod.snd).mergeSort (fun a b => a.period.le b.period))

/-- A row of a pandas frame built by `_frame_from_statements`: the period plus
one cell per requested key (missing metrics become NaN). -/
structure Row where
  period : Date
  cells : List (String × PyFloat)
deriving DecidableEq, Repr

/-- Cell access `row[key]`, the `g(d, key)` getter on a materialised row: every requested
key is present (NaN when the metric was missing). -/
def Row.get (r : Row) (k : String) : PyFloat :=
  (r.cells.lookup k).getD PyFloat.nan

/-- Frame construction `_frame_from_statements(statements, keys)`. -/
def frameFromStatements (statements : List FinancialStatement) (keys : List String) :
    List Row :=
  statements.map fun s => ⟨s.period, keys.map fun k => (k, toFloatOpt (s.metrics.lookup k))⟩

/-- Sorting `df.sort_values("period")` ascending (stable). -/
def sortByPeriod (rows : List Row) : List Row :=
  rows.mergeSort (fun a b => a.period.le b.period)

/-- Sorting `df.sort_values("period", ascending=False)` (stable). -/
def sortByPeriodDesc (rows : List Row) : List Row :=
  rows.mergeSort (fun a b => a.period.ge b.period)

/-- Filter `_filter_annual(df)`: keep rows whose period month is 12. -/
def filterAnnual (rows : List Row) : List Row :=
  rows.filter fun r => r.period.m == 12

/-- The `g(d, key)` convenience getter on an optional latest/previous row. -/
def rowGet (d : Option Row) (k : String) : PyFloat :=
  match d with
  | none => PyFloat.nan
  | some r => r.get k

/-- Helper `_latest_and_prev(df)`: sort ascending by period and return the last and
second-to-last rows. -/
def latestAndPrev (rows : List Row) : Option Row × Option Row :=
  let sorted := sortByPeriod rows
  match sorted.reverse with
  | [] => (none, none)
  | [a] => (some a, none)
  | a :: b :: _ => (some a, some b)

/-- Aggregation `_ttm_from_df(df, keys)`: sum the latest four periods per key, or take the
single latest value when the 4-period window is entirely annual (month 12) or
only one period exists.  Returns the per-key totals and the latest period of
the window. -/
def ttmFromDf (rows : List Row) (keys : List String) :
    List (String × PyFloat) × Option Date :=
  match sortByPeriodDesc rows with
  | [] => ([], none)
  | first :: _ =>
    let window := (sortByPeriodDesc rows).take 4
    let months := window.map fun r => r.period.m
    let useSingle := months.all (· == 12) || window.length == 1
    let totals := keys.map fun k =>
      if useSingle then
        (k, first.get k)
      else
        let values := (window.map fun r => r.get k).filter (fun v => !v.isNan)
        (k, if values.isEmpty then PyFloat.nan else
          PyFloat.val ((values.map PyFloat.toQ).sum))
    (totals, some first.period)

/-- Lookup `dict.get(key, nan)` over the per-key totals of a TTM result. -/
def ttmGet (totals : List (String × PyFloat)) (k : String) : PyFloat :=
  (totals.lookup k).getD PyFloat.nan

/-! ### GrowthCalculator -/

/-- pandas forward-fill (`fill_method="pad"`, the `pct_change` default):
carry the last non-NaN value forward; leading NaNs stay NaN. -/
def ffill : List PyFloat → List PyFloat :=
  go PyFloat.nan
where
  go (last : PyFloat) : List PyFloat → List PyFloat
    | [] => []
    | v :: rest =>
      let v' := if v.isNan then last else v
      v' :: go v' rest

/-- numpy division semantics for `curr / prev - 1` as performed by
`Series.pct_change`: NaN propagates, division by zero gives ±infinity
(or NaN for `0/0`). -/
def pctRatio (curr prev : PyFloat) : PyFloat :=
  match curr, prev with
  | PyFloat.val c, PyFloat.val p =>
    if p = 0 then
      if c > 0 then PyFloat.inf else if c < 0 then PyFloat.ninf else PyFloat.nan
    else PyFloat.val (c / p - 1)
  | _, _ => PyFloat.nan

/-- The last entry of `series.pct_change()`: forward-fill, then the relative change of
the last entry against the one before it. -/
def pctChangeLast (vals : List PyFloat) : PyFloat :=
  match (ffill vals).reverse with
  | curr :: prev :: _ => pctRatio curr prev
  | _ => PyFloat.nan

/-- Helper `_yoy(df, col)`: annual YoY via `pct_change` of the annual subframe when
the latest period is a December close, otherwise the change against the
same-month row one calendar year earlier. -/
def yoy (rows : List Row) (col : String) : PyFloat :=
  match (sortByPeriod rows).getLast? with
  | none => PyFloat.nan
  | some latest =>
    if latest.period.m == 12 then
      let annual := filterAnnual (sortByPeriod rows)
      if annual.length < 2 then PyFloat.nan
      else pctChangeLast ((sortByPeriod annual).map (·.get col))
    else
      let prevCandidates := (sortByPeriod rows).filter fun r =>
        r.period.m == latest.period.m && r.period.y == latest.period.y - 1
      match prevCandidates.getLast? with
      | none => PyFloat.nan
      | some prevRow =>
        let prevVal := prevRow.get col
        let latestVal := latest.get col
        if prevVal.isNan || latestVal.isNan || prevVal.isZero then PyFloat.nan
        else PyFloat.val ((latestVal.toQ - prevVal.toQ) / prevVal.toQ)

/-- The value `(end/start) ** (1/years) - 1` as a `PyFloat` (exact when `years = 1`,
symbolic `pow` otherwise). -/
def powFloat (base : ℚ) (years : ℕ) : PyFloat :=
  if years = 1 then PyFloat.val (base - 1) else PyFloat.pow base years

/-- The series `df[["period", col]].dropna()` sorted by period: the non-missing values of
`col` with their periods, in period order. -/
def nonNullSeries (rows : List Row) (col : String) : List (Date × ℚ) :=
  (sortByPeriod rows).filterMap fun r =>
    match r.get col with
    | PyFloat.val q => some (r.period, q)
    | _ => none

/-- Helper `_cagr_from_df(df, col)`: NaN when the frame has fewer than two rows, the
column has no non-missing value, or the first/last non-missing values are not
strictly positive; otherwise `(end/start) ** (1/years) - 1` with
`years = max(end.year - start.year, 1)`.  (The fallback of the source to
`len(series) - 1` fires only when periods are not date-like, which cannot
happen for the date-typed frames of this model.) -/
def cagrFromDf (rows : List Row) (col : String) : PyFloat :=
  let series := nonNullSeries rows col
  if series.isEmpty || rows.length < 2 then PyFloat.nan
  else
    match series.head?, series.getLast? with
    | some (ds, s), some (de, e) =>
      if s ≤ 0 || e ≤ 0 then PyFloat.nan
      else powFloat (e / s) (max (de.y - ds.y) 1).toNat
    | _, _ => PyFloat.nan

/-- The metric dictionary built by `GrowthCalculator.calculate` from the
deduplicated income statements: YoY and CAGR per metric plus the period
count.  Each CAGR is taken from the annual subframe whenever that subframe is
non-empty, else from the full frame. -/
def growthMetricsOf (statements : List FinancialStatement) : GrowthCurve :=
  let df := frameFromStatements statements ["revenue", "net_income"]
  if df.isEmpty then
    { metrics := [("revenue_cagr", PyFloat.nan), ("net_income_cagr", PyFloat.nan)] }
  else
    let dfS := sortByPeriod df
    let annualDf := filterAnnual dfS
    { metrics :=
      [("revenue_yoy", yoy dfS "revenue"),
       ("net_income_yoy", yoy dfS "net_income"),
       ("revenue_cagr", cagrFromDf (if annualDf.isEmpty then dfS else annualDf) "revenue"),
       ("net_income_cagr", cagrFromDf (if annualDf.isEmpty then dfS else annualDf) "net_income"),
       ("periods_count", PyFloat.val dfS.length)] }

/-- Method `GrowthCalculator.calculate`: raises on an incomplete dataset,
dedups the income statements (which itself may raise, see `dedupStatements`),
then computes the growth metrics. -/
def growthCalculate (ds : FinancialDataset) : Except String GrowthCurve := do
  if !ds.isComplete then
    throw "ValueError: Incomplete financial dataset; cannot compute growth curve."
  let statements ← dedupStatements ds.income_statements
  return growthMetricsOf statements

/-! ### RatioCalculator -/

/-- Safe division `sdiv(a, b)`: NaN when either operand is NaN or the denominator is zero,
otherwise exact division.  (The initial `b is None` test of the source is
vestigial: both arguments are always floats by the time `sdiv` is called.) -/
def sdiv (a b : PyFloat) : PyFloat :=
  if a.isNan || b.isNan || b.isZero then PyFloat.nan
  else PyFloat.val (a.toQ / b.toQ)

/-- The balance-sheet `avg(key)` helper: average of the latest and previous
snapshot; whichever one is present when the other is missing; NaN if neither. -/
def avgRows (latest prev : Option Row) (k : String) : PyFloat :=
  let a := rowGet latest k
  let b := rowGet prev k
  if a.isNan && b.isNan then PyFloat.nan
  else if b.isNan then a
  else if a.isNan then b
  else PyFloat.val ((a.toQ + b.toQ) / 2)

/-- The local base quantities computed by `RatioCalculator.calculate` before
the ratios dictionary is assembled. -/
structure RatioBases where
  revenue : PyFloat
  cogs : PyFloat
  gross_profit : PyFloat
  operating_income : PyFloat
  ebit : PyFloat
  ebitda : PyFloat
  net_income : PyFloat
  interest_expense : PyFloat
  rd_expense : PyFloat
  sga_expense : PyFloat
  ocf : PyFloat
  capex : PyFloat
  fcf : PyFloat
  total_assets : PyFloat
  total_equity : PyFloat
  current_assets : PyFloat
  current_liabilities : PyFloat
  inventory : PyFloat
  accounts_receivable : PyFloat
  accounts_payable : PyFloat
  cash : PyFloat
  st_debt : PyFloat
  lt_debt : PyFloat
  total_debt : PyFloat
  avg_assets : PyFloat
  avg_equity : PyFloat
  avg_inventory : PyFloat
  avg_ar : PyFloat
  avg_ap : PyFloat
  shares_out : PyFloat
  price : PyFloat
  market_cap : PyFloat
  net_debt : PyFloat
  dividend_per_share : PyFloat
  inc_ttm_period : Option Date
  latest_inc_period : Option Date
deriving DecidableEq, Repr

/-- The frame keys requested for the income statements by `RatioCalculator`. -/
def ratioIncKeys : List String :=
  ["revenue", "cogs", "gross_profit", "operating_income", "ebit", "ebitda",
   "net_income", "interest_expense", "rd_expense", "sga_expense",
   "depreciation_amortization"]

/-- The frame keys requested for the balance sheets by `RatioCalculator`. -/
def ratioBsKeys : List String :=
  ["total_assets", "total_equity", "total_liabilities", "cash_and_equivalents",
   "short_term_debt", "long_term_debt", "inventory", "accounts_receivable",
   "accounts_payable", "current_assets", "current_liabilities",
   "shares_outstanding", "price", "market_cap", "dividend_per_share"]

/-- The frame keys requested for the cash-flow statements by `RatioCalculator`. -/
def ratioCfKeys : List String :=
  ["operating_cash_flow", "capital_expenditures", "free_cash_flow"]

/-- Total debt: sum the non-NaN short/long-term debt; NaN only when both are
missing (so the accumulated sum is still the initial `0.0`). -/
def totalDebtOf (st lt : PyFloat) : PyFloat :=
  let s : ℚ := (if st.isNan then 0 else st.toQ) + (if lt.isNan then 0 else lt.toQ)
  if s = 0 ∧ st.isNan ∧ lt.isNan then PyFloat.nan else PyFloat.val s

/-- Market capitalization with the `price × shares_outstanding` fallback. -/
def marketCapOf (mc price shares : PyFloat) : PyFloat :=
  if mc.isNan && !price.isNan && !shares.isNan then
    PyFloat.val (price.toQ * shares.toQ)
  else mc

/-- Net debt `max(total_debt - cash, 0)`, NaN when either input is missing. -/
def netDebtOf (totalDebt cash : PyFloat) : PyFloat :=
  if !totalDebt.isNan && !cash.isNan then
    PyFloat.val (max (totalDebt.toQ - cash.toQ) 0)
  else PyFloat.nan

/-- The base-quantity prologue of `RatioCalculator.calculate` applied to the
already-deduplicated statements: frames, latest/previous snapshots, TTM sums
and the derived debt/market-cap quantities. -/
def ratioBases (incS bsS cfS : List FinancialStatement) : RatioBases :=
  let incDf := sortByPeriod (frameFromStatements incS ratioIncKeys)
  let bsDf := sortByPeriod (frameFromStatements bsS ratioBsKeys)
  let cfDf := sortByPeriod (frameFromStatements cfS ratioCfKeys)
  let li := latestAndPrev incDf
  let lb := latestAndPrev bsDf
  let lc := latestAndPrev cfDf
  let incTtm := ttmFromDf incDf
    ["revenue", "net_income", "ebit", "ebitda", "gross_profit",
     "operating_income", "cogs", "interest_expense"]
  let cfTtm := ttmFromDf cfDf
    ["operating_cash_flow", "capital_expenditures", "free_cash_flow"]
  let pickInc := fun (k : String) =>
    if incTtm.1.isEmpty then rowGet li.1 k else ttmGet incTtm.1 k
  let pickCf := fun (k : String) =>
    if cfTtm.1.isEmpty then rowGet lc.1 k else ttmGet cfTtm.1 k
  let ocf := pickCf "operating_cash_flow"
  let capex := pickCf "capital_expenditures"
  let fcf0 := pickCf "free_cash_flow"
  let fcf :=
    if fcf0.isNan then
      if !ocf.isNan && !capex.isNan then PyFloat.val (ocf.toQ - capex.toQ) else fcf0
    else fcf0
  let st := rowGet lb.1 "short_term_debt"
  let lt := rowGet lb.1 "long_term_debt"
  let totalDebt := totalDebtOf st lt
  let cash := rowGet lb.1 "cash_and_equivalents"
  let marketCap := marketCapOf (rowGet lb.1 "market_cap")
    (rowGet lb.1 "price") (rowGet lb.1 "shares_outstanding")
  { revenue := pickInc "revenue"
    cogs := pickInc "cogs"
    gross_profit := pickInc "gross_profit"
    operating_income := pickInc "operating_income"
    ebit := pickInc "ebit"
    ebitda := pickInc "ebitda"
    net_income := pickInc "net_income"
    interest_expense := (pickInc "interest_expense").pabs
    rd_expense := rowGet li.1 "rd_expense"
    sga_expense := rowGet li.1 "sga_expense"
    ocf := ocf
    capex := capex
    fcf := fcf
    total_assets := rowGet lb.1 "total_assets"
    total_equity := rowGet lb.1 "total_equity"
    current_assets := rowGet lb.1 "current_assets"
    current_liabilities := rowGet lb.1 "current_liabilities"
    inventory := rowGet lb.1 "inventory"
    accounts_receivable := rowGet lb.1 "accounts_receivable"
    accounts_payable := rowGet lb.1 "accounts_payable"
    cash := cash
    st_debt := st
    lt_debt := lt
    total_debt := totalDebt
    avg_assets := avgRows lb.1 lb.2 "total_assets"
    avg_equity := avgRows lb.1 lb.2 "total_equity"
    avg_inventory := avgRows lb.1 lb.2 "inventory"
    avg_ar := avgRows lb.1 lb.2 "accounts_receivable"
    avg_ap := avgRows lb.1 lb.2 "accounts_payable"
    shares_out := rowGet lb.1 "shares_outstanding"
    price := rowGet lb.1 "price"
    market_cap := marketCap
    net_debt := netDebtOf totalDebt cash
    dividend_per_share := rowGet lb.1 "dividend_per_share"
    inc_ttm_period := incTtm.2
    latest_inc_period := (li.1).map (·.period) }

/-- The ratios dictionary assembled by `RatioCalculator.calculate` (insertion
order preserved; `cash_conversion_cycle` appended last from the dso/dio/dpo
entries). -/
def ratioDict (b : RatioBases) : List (String × PyFloat) :=
  let dso := if !b.accounts_receivable.isNan
    then (sdiv b.accounts_receivable b.revenue).pmul (PyFloat.val 365) else PyFloat.nan
  let dio := if !b.inventory.isNan
    then (sdiv b.inventory b.cogs).pmul (PyFloat.val 365) else PyFloat.nan
  let dpo := if !b.accounts_payable.isNan
    then (sdiv b.accounts_payable b.cogs).pmul (PyFloat.val 365) else PyFloat.nan
  [("gross_margin", sdiv b.gross_profit b.revenue),
   ("operating_margin", sdiv b.operating_income b.revenue),
   ("net_margin", sdiv b.net_income b.revenue),
   ("ebitda_margin", sdiv b.ebitda b.revenue),
   ("roe", sdiv b.net_income b.avg_equity),
   ("roa", sdiv b.net_income b.avg_assets),
   ("current_ratio", sdiv b.current_assets b.current_liabilities),
   ("quick_ratio", sdiv (b.current_assets.psub b.inventory.orZero) b.current_liabilities),
   ("debt_to_equity", sdiv b.total_debt b.total_equity),
   ("debt_to_assets", sdiv b.total_debt b.total_assets),
   ("net_debt_to_ebitda", sdiv b.net_debt b.ebitda),
   ("interest_coverage", sdiv b.ebit b.interest_expense),
   ("asset_turnover", sdiv b.revenue b.avg_assets),
   ("inventory_turnover", sdiv b.cogs b.avg_inventory),
   ("receivables_turnover", sdiv b.revenue b.avg_ar),
   ("payables_turnover", sdiv b.cogs b.avg_ap),
   ("dso", dso),
   ("dio", dio),
   ("dpo", dpo),
   ("fcf_margin", sdiv b.fcf b.revenue),
   ("capex_to_sales", sdiv b.capex b.revenue),
   ("ocf_ratio", sdiv b.ocf b.current_liabilities),
   ("eps", sdiv b.net_income b.shares_out),
   ("pe", sdiv b.price (sdiv b.net_income b.shares_out)),
   ("pb", sdiv b.price (sdiv b.total_equity b.shares_out)),
   ("pcf", sdiv b.price (sdiv b.ocf b.shares_out)),
   ("dividend_yield", sdiv b.dividend_per_share b.price),
   ("ev_over_ebitda",
     if !b.market_cap.isNan then sdiv (b.market_cap.padd b.net_debt.orZero) b.ebitda
     else PyFloat.nan),
   ("ev_over_sales",
     if !b.market_cap.isNan then sdiv (b.market_cap.padd b.net_debt.orZero) b.revenue
     else PyFloat.nan),
   ("cash_conversion_cycle",
     if dso.isNan || dio.isNan || dpo.isNan then PyFloat.nan
     else PyFloat.val (dso.toQ + dio.toQ - dpo.toQ))]

/-- Method `RatioCalculator.calculate`: raises on an incomplete dataset, dedups each
statement sequence (which may raise a `TypeError`, see `dedupStatements`),
then assembles the ratios dictionary and metadata. -/
def ratioCalculate (ds : FinancialDataset) : Except String RatioSummary := do
  if !ds.isComplete then
    throw "ValueError: Incomplete financial dataset; cannot compute ratios."
  let incS ← dedupStatements ds.income_statements
  let bsS ← dedupStatements ds.balance_sheets
  let cfS ← dedupStatements ds.cash_flows
  let b := ratioBases incS bsS cfS
  let latestPeriod :=
    match b.inc_ttm_period with
    | some d => d.toStr
    | none => match b.latest_inc_period with
      | some d => d.toStr
      | none => ""
  return { ratios := ratioDict b,
           metadata :=
             [("notes", "Ratios computed using TTM income/CF and latest balance sheet with simple averages for denominators."),
              ("latest_period", latestPeriod)] }

/-! ### ValuationEngine -/

/-- The Python builtin `round` on a finite float: round half to even, returning an
integer. -/
def pround (q : ℚ) : ℤ :=
  let f := ⌊q⌋
  let r := q - f
  if r < 1/2 then f
  else if 1/2 < r then f + 1
  else if f % 2 = 0 then f else f + 1

/-- The DCF core `_dcf_fcff`: forecast `fcf·(1+g)^t` for `t = 1..years`, discount at WACC,
add the discounted Gordon-growth terminal value, subtract net debt, divide by
shares.  Returns `(equity_value, per_share)`; both NaN when `years ≤ 0` or
`wacc ≤ terminal_growth`, and the per-share value NaN when `shares ≤ 0`.
All call sites guard their arguments against NaN (so the internal
`np.isnan(net_debt)` fallback of the body is vacuous), so the arguments are exact
rationals. -/
def dcfFcff (fcf growth wacc terminalGrowth : ℚ) (years : ℕ)
    (netDebt shares : ℚ) : PyFloat × PyFloat :=
  if years = 0 ∨ wacc ≤ terminalGrowth then (PyFloat.nan, PyFloat.nan)
  else
    let cashFlows := (List.range years).map fun t => fcf * (1 + growth) ^ (t + 1)
    let discounts := (List.range years).map fun t => (1 + wacc) ^ (t + 1)
    let pvFlows := ((cashFlows.zip discounts).map fun p => p.1 / p.2).sum
    let terminalCf := (cashFlows.getLastD 0) * (1 + terminalGrowth)
    let terminalValue := terminalCf / (wacc - terminalGrowth)
    let pvTerminal := terminalValue / (1 + wacc) ^ years
    let enterpriseValue := pvFlows + pvTerminal
    let equityValue := enterpriseValue - netDebt
    (PyFloat.val equityValue,
     if shares > 0 then PyFloat.val (equityValue / shares) else PyFloat.nan)

/-- Resolution order `pick_assumption(key, dataset_value, default_value)`: explicit override >
hint > dataset-embedded value > derived default.  Override and hint mappings
carry finite floats (a `None`/NaN entry behaves like an absent key). -/
def pickAssumption (overrides hints : List (String × ℚ)) (key : String)
    (datasetValue : PyFloat) (defaultValue : ℚ) : ℚ :=
  match overrides.lookup key with
  | some v => v
  | none =>
    match hints.lookup key with
    | some v => v
    | none =>
      match datasetValue with
      | PyFloat.val q => q
      | _ => defaultValue

/-- Lookup `derived_defaults.get(key, fallback)`. -/
def ddGet (dd : List (String × ℚ)) (key : String) (fallback : ℚ) : ℚ :=
  (dd.lookup key).getD fallback

/-- Python dict update `d[k] = v` preserving insertion order. -/
def assocSet (l : List (String × ℚ)) (k : String) (v : ℚ) : List (String × ℚ) :=
  if l.any (fun p => p.1 == k) then
    l.map fun p => if p.1 == k then (k, v) else p
  else l ++ [(k, v)]

/-- One entry of the scenario list built by the `_scenario` closure
(the source dict is `{"case": label, "fair_value": fv, "wacc": w, "g": g}`;
the `case` key is named `caseLabel` here because `case` is reserved). -/
structure Scenario where
  caseLabel : String
  fair_value : PyFloat
  wacc : ℚ
  g : ℚ
deriving DecidableEq, Repr

/-- A value of the `valuation_methods` mapping: either a per-method field
dictionary or the `{"cases": [...]}` wrapper stored under `"scenarios"`. -/
inductive MethodVal where
  | fields : List (String × PyFloat) → MethodVal
  | cases : List Scenario → MethodVal
deriving DecidableEq, Repr

/-- The four values computed at the end of `ValuationEngine.run` and passed to
the `ValuationBundle` constructor. -/
structure ValuationOutput where
  intrinsic_value : Option ℚ
  valuation_methods : List (String × MethodVal)
  assumptions : List (String × ℚ)
  warnings : List String
deriving DecidableEq, Repr

/-- The frame keys requested for the income statements by `ValuationEngine`. -/
def valIncKeys : List String := ["net_income", "ebitda", "revenue"]

/-- The frame keys requested for the balance sheets by `ValuationEngine`. -/
def valBsKeys : List String :=
  ["cash_and_equivalents", "short_term_debt", "long_term_debt", "total_equity",
   "shares_outstanding", "price", "market_cap", "wacc", "g", "terminal_growth",
   "forecast_years"]

/-- The frame keys requested for the cash flows by `ValuationEngine`. -/
def valCfKeys : List String :=
  ["free_cash_flow", "operating_cash_flow", "capital_expenditures"]

/-- The income frame of `ValuationEngine.run`, sorted by period. -/
def valIncDf (incS : List FinancialStatement) : List Row :=
  sortByPeriod (frameFromStatements incS valIncKeys)

/-- The balance-sheet frame of `ValuationEngine.run`, sorted by period. -/
def valBsDf (bsS : List FinancialStatement) : List Row :=
  sortByPeriod (frameFromStatements bsS valBsKeys)

/-- The cash-flow frame of `ValuationEngine.run`, sorted by period. -/
def valCfDf (cfS : List FinancialStatement) : List Row :=
  sortByPeriod (frameFromStatements cfS valCfKeys)

/-- The latest income row (`latest_inc`). -/
def valLatestInc (incS : List FinancialStatement) : Option Row :=
  (latestAndPrev (valIncDf incS)).1

/-- The latest balance-sheet row (`latest_bs`). -/
def valLatestBs (bsS : List FinancialStatement) : Option Row :=
  (latestAndPrev (valBsDf bsS)).1

/-- The latest cash-flow row (`latest_cf`). -/
def valLatestCf (cfS : List FinancialStatement) : Option Row :=
  (latestAndPrev (valCfDf cfS)).1

/-- The income TTM totals (`inc_ttm`). -/
def valIncTtm (incS : List FinancialStatement) : List (String × PyFloat) :=
  (ttmFromDf (valIncDf incS) valIncKeys).1

/-- The cash-flow TTM totals (`cf_ttm`). -/
def valCfTtm (cfS : List FinancialStatement) : List (String × PyFloat) :=
  (ttmFromDf (valCfDf cfS) valCfKeys).1

/-- The `price` input of the valuation engine. -/
def vPrice (bsS : List FinancialStatement) : PyFloat :=
  rowGet (valLatestBs bsS) "price"

/-- The `shares` input of the valuation engine. -/
def vShares (bsS : List FinancialStatement) : PyFloat :=
  rowGet (valLatestBs bsS) "shares_outstanding"

/-- The `ebitda` base metric (TTM, falling back to the latest period). -/
def vEbitda (incS : List FinancialStatement) : PyFloat :=
  if (valIncTtm incS).isEmpty then rowGet (valLatestInc incS) "ebitda"
  else ttmGet (valIncTtm incS) "ebitda"

/-- The `revenue` base metric (TTM, falling back to the latest period). -/
def vRevenue (incS : List FinancialStatement) : PyFloat :=
  if (valIncTtm incS).isEmpty then rowGet (valLatestInc incS) "revenue"
  else ttmGet (valIncTtm incS) "revenue"

/-- The `net_income` base metric (TTM, falling back to the latest period). -/
def vNetIncome (incS : List FinancialStatement) : PyFloat :=
  if (valIncTtm incS).isEmpty then rowGet (valLatestInc incS) "net_income"
  else ttmGet (valIncTtm incS) "net_income"

/-- The `eps` base metric: `net_income / shares` when both are present and the
share count is non-zero, NaN otherwise. -/
def vEps (incS bsS : List FinancialStatement) : PyFloat :=
  if !(vNetIncome incS).isNan && !(vShares bsS).isNan && !(vShares bsS).isZero
  then PyFloat.val ((vNetIncome incS).toQ / (vShares bsS).toQ) else PyFloat.nan

/-- The `net_debt` input of the valuation engine. -/
def vNetDebt (bsS : List FinancialStatement) : PyFloat :=
  netDebtOf
    (totalDebtOf (rowGet (valLatestBs bsS) "short_term_debt")
      (rowGet (valLatestBs bsS) "long_term_debt"))
    (rowGet (valLatestBs bsS) "cash_and_equivalents")

/-- The `fcf` input (TTM free cash flow, falling back to
`operating_cash_flow - capital_expenditures`). -/
def vFcf (cfS : List FinancialStatement) : PyFloat :=
  let fcf0 := if (valCfTtm cfS).isEmpty then rowGet (valLatestCf cfS) "free_cash_flow"
    else ttmGet (valCfTtm cfS) "free_cash_flow"
  if fcf0.isNan then
    let ocf := if (valCfTtm cfS).isEmpty then rowGet (valLatestCf cfS) "operating_cash_flow"
      else ttmGet (valCfTtm cfS) "operating_cash_flow"
    let capex := if (valCfTtm cfS).isEmpty then rowGet (valLatestCf cfS) "capital_expenditures"
      else ttmGet (valCfTtm cfS) "capital_expenditures"
    if !ocf.isNan && !capex.isNan then PyFloat.val (ocf.toQ - capex.toQ) else fcf0
  else fcf0

/-- The `book_per_share` base metric: `total_equity / shares`. -/
def vBookPerShare (bsS : List FinancialStatement) : PyFloat :=
  if !((rowGet (valLatestBs bsS) "total_equity").isNan
      || (vShares bsS).isNan || (vShares bsS).isZero)
  then PyFloat.val ((rowGet (valLatestBs bsS) "total_equity").toQ / (vShares bsS).toQ)
  else PyFloat.nan

/-- The body of `ValuationEngine.run` applied to already-deduplicated
statements, up to (but not including) the final `ValuationBundle(...)`
construction.

`derivedDefaults` is the output of `self._derive_assumptions(...)`, taken as a
parameter: the WACC/band tiers of that helper are exact rational case analysis,
but its growth path flows through pandas real-number statistics (a CAGR via real
exponentiation and a pct-change standard deviation), so the theorems below
quantify over every possible defaults mapping instead of fixing one.  (The
unused source local `net_margin_ratio` is omitted, and `avg_from_inc` in
`RatioCalculator` is likewise defined-but-unused in the source.) -/
def valuationCompute (incS bsS cfS : List FinancialStatement)
    (overrides hints : List (String × ℚ)) (dd : List (String × ℚ)) :
    ValuationOutput :=
  let latestBs := valLatestBs bsS
  let price := vPrice bsS
  let shares := vShares bsS
  let warnings0 : List String :=
    if shares.isNan || shares.ple (val 0) then
      ["shares_outstanding 缺失或无效，部分估值方法可能不可靠。"]
    else []
  let ebitda := vEbitda incS
  let revenue := vRevenue incS
  let eps := vEps incS bsS
  let netDebt := vNetDebt bsS
  let fcf := vFcf cfS
  let wacc := pickAssumption overrides hints "wacc" (rowGet latestBs "wacc") (ddGet dd "wacc" (1/10))
  let growth := pickAssumption overrides hints "g" (rowGet latestBs "g") (ddGet dd "g" (2/25))
  let terminalGrowth := pickAssumption overrides hints "terminal_growth"
    (rowGet latestBs "terminal_growth") (ddGet dd "terminal_growth" (3/100))
  let years := pickAssumption overrides hints "forecast_years"
    (rowGet latestBs "forecast_years") (ddGet dd "forecast_years" 5)
  let nYears := (max (pround years) 1).toNat
  -- DCF (FCFF) → equity per share
  let dcfGuard := !(fcf.isNan || netDebt.isNan || shares.isNan || shares.isZero)
  let dcfPair :=
    if dcfGuard then dcfFcff fcf.toQ growth wacc terminalGrowth nYears netDebt.toQ shares.toQ
    else (PyFloat.nan, PyFloat.nan)
  let dcfFairValue := if dcfGuard then dcfPair.2 else PyFloat.nan
  let methods0 : List (String × MethodVal) :=
    if dcfGuard then
      let waccSens := ([wacc - 2/100, wacc + 2/100].filter
          fun w => terminalGrowth < w ∧ 0 < w).map
        fun w => (s!"fair_value_wacc_{pround (w * 100)}",
          (dcfFcff fcf.toQ growth w terminalGrowth nYears netDebt.toQ shares.toQ).2)
      let gSens := ([growth - 1/100, growth + 1/100].filter
          fun gs => gs < wacc ∧ -(1/2) < gs).map
        fun gs => (s!"fair_value_g_{pround (gs * 100)}",
          (dcfFcff fcf.toQ gs wacc terminalGrowth nYears netDebt.toQ shares.toQ).2)
      let upside : List (String × PyFloat) :=
        if !price.isNan then
          [("upside",
            if price.pgt (val 0) then
              match dcfPair.2 with
              | PyFloat.val v => PyFloat.val (v / price.toQ - 1)
              | _ => PyFloat.nan
            else PyFloat.nan)]
        else []
      [("dcf", MethodVal.fields
        ([("fair_value", dcfPair.2), ("equity_value", dcfPair.1),
          ("wacc", PyFloat.val wacc), ("g", PyFloat.val growth),
          ("gt", PyFloat.val terminalGrowth), ("years", PyFloat.val nYears)]
          ++ waccSens ++ gSens ++ upside))]
    else []
  -- PE band (requires positive EPS and price)
  let peLow0 := pickAssumption overrides hints "pe_low" PyFloat.nan (ddGet dd "pe_low" 10)
  let peHigh0 := pickAssumption overrides hints "pe_high" PyFloat.nan (ddGet dd "pe_high" 20)
  let peBand := if peLow0 ≤ 0 ∨ peHigh0 ≤ 0 ∨ peHigh0 ≤ peLow0 then ((10 : ℚ), (20 : ℚ))
    else (peLow0, peHigh0)
  let warnings1 := warnings0 ++
    (if eps.isNan || eps.ple (val 0) then ["EPS/净利润为负或缺失，PE 估值仅作参考。"] else [])
  let methods1 := methods0 ++
    (if !(eps.isNan || shares.isNan || price.isNan) && eps.pgt (val 0) && price.pgt (val 0) then
      let peMid := (peBand.1 + peBand.2) / 2
      let fairValuePe := eps.toQ * peMid
      [("pe_band", MethodVal.fields
        [("fair_value", PyFloat.val fairValuePe), ("pe_low", PyFloat.val peBand.1),
         ("pe_high", PyFloat.val peBand.2), ("eps", eps),
         ("upside", if price.pgt (val 0) then PyFloat.val (fairValuePe / price.toQ - 1)
           else PyFloat.nan)])]
    else [])
  -- EV/EBITDA
  let evLow0 := pickAssumption overrides hints "ev_ebitda_low" PyFloat.nan (ddGet dd "ev_ebitda_low" 6)
  let evHigh0 := pickAssumption overrides hints "ev_ebitda_high" PyFloat.nan (ddGet dd "ev_ebitda_high" 12)
  let evBand := if evLow0 ≤ 0 ∨ evHigh0 ≤ 0 ∨ evHigh0 ≤ evLow0 then ((6 : ℚ), (12 : ℚ))
    else (evLow0, evHigh0)
  let methods2 := methods1 ++
    (if !(ebitda.isNan || ebitda.ple (val 0) || netDebt.isNan || shares.isNan) then
      let evMid := (evBand.1 + evBand.2) / 2
      let impliedEquity := ebitda.toQ * evMid - netDebt.toQ
      let fairValueEv := if shares.pgt (val 0) then PyFloat.val (impliedEquity / shares.toQ)
        else PyFloat.nan
      let upside : List (String × PyFloat) :=
        if !price.isNan then
          [("upside",
            if price.pgt (val 0) then
              match fairValueEv with
              | PyFloat.val v => PyFloat.val (v / price.toQ - 1)
              | _ => PyFloat.nan
            else PyFloat.nan)]
        else []
      [("ev_ebitda", MethodVal.fields
        ([("fair_value", fairValueEv), ("ev_ebitda_low", PyFloat.val evBand.1),
          ("ev_ebitda_high", PyFloat.val evBand.2), ("ebitda", ebitda)] ++ upside))]
    else [])
  -- PB band (book value multiples)
  let pbDefaults := (ddGet dd "pb_low" (4/5), ddGet dd "pb_high" (3/2))
  let pbLow0 := pickAssumption overrides hints "pb_low" PyFloat.nan pbDefaults.1
  let pbHigh0 := pickAssumption overrides hints "pb_high" PyFloat.nan pbDefaults.2
  let pbBand := if pbLow0 ≤ 0 ∨ pbHigh0 ≤ 0 ∨ pbHigh0 ≤ pbLow0 then pbDefaults
    else (pbLow0, pbHigh0)
  let bookPerShare := vBookPerShare bsS
  let methods3 := methods2 ++
    (if !bookPerShare.isNan && bookPerShare.pgt (val 0) then
      let pbMid := (pbBand.1 + pbBand.2) / 2
      let fairValuePb := bookPerShare.toQ * pbMid
      let upside : List (String × PyFloat) :=
        if !price.isNan && price.pgt (val 0) then
          [("upside", PyFloat.val (fairValuePb / price.toQ - 1))]
        else []
      [("pb_band", MethodVal.fields
        ([("fair_value", PyFloat.val fairValuePb), ("pb_low", PyFloat.val pbBand.1),
          ("pb_high", PyFloat.val pbBand.2), ("book_per_share", bookPerShare)] ++ upside))]
    else [])
  -- EV/Sales
  let salesDefaults := (ddGet dd "ev_sales_low" 1, ddGet dd "ev_sales_high" 2)
  let esLow0 := pickAssumption overrides hints "ev_sales_low" PyFloat.nan salesDefaults.1
  let esHigh0 := pickAssumption overrides hints "ev_sales_high" PyFloat.nan salesDefaults.2
  let esBand := if esLow0 ≤ 0 ∨ esHigh0 ≤ 0 ∨ esHigh0 ≤ esLow0 then salesDefaults
    else (esLow0, esHigh0)
  let methods4 := methods3 ++
    (if !(revenue.isNan || revenue.ple (val 0) || netDebt.isNan || shares.isNan || shares.isZero) then
      let esMid := (esBand.1 + esBand.2) / 2
      let impliedEquity := revenue.toQ * esMid - netDebt.toQ
      let fairValueSales := if shares.pgt (val 0) then PyFloat.val (impliedEquity / shares.toQ)
        else PyFloat.nan
      let upside : List (String × PyFloat) :=
        if !price.isNan && price.pgt (val 0) then
          [("upside",
            match fairValueSales with
            | PyFloat.val v => PyFloat.val (v / price.toQ - 1)
            | _ => PyFloat.nan)]
        else []
      [("ev_sales", MethodVal.fields
        ([("fair_value", fairValueSales), ("ev_sales_low", PyFloat.val esBand.1),
          ("ev_sales_high", PyFloat.val esBand.2), ("ttm_revenue", revenue)] ++ upside))]
    else [])
  -- Intrinsic value: mean of the finite method fair values
  let fairValues := methods4.filterMap fun p =>
    match p.2 with
    | MethodVal.fields kvs =>
      match kvs.lookup "fair_value" with
      | some (PyFloat.val q) => some q
      | _ => none
    | _ => none
  let intrinsic : Option ℚ :=
    if fairValues.isEmpty then none else some (fairValues.sum / fairValues.length)
  let baseVal : PyFloat :=
    match intrinsic with
    | some q => PyFloat.val q
    | none => if !dcfFairValue.isNan then dcfFairValue else PyFloat.nan
  -- Scenario set (base/bull/bear) on the DCF backbone
  let methods5 := methods4 ++
    (if !baseVal.isNan then
      let scenario := fun (label : String) (w gVal : ℚ) =>
        let fv :=
          if !dcfFairValue.isNan then
            (dcfFcff fcf.orZero.toQ gVal w terminalGrowth nYears netDebt.orZero.toQ
              (if shares.pgt (val 0) then shares.toQ else 1)).2
          else baseVal
        Scenario.mk label fv w gVal
      let bullWacc := max (wacc - 1/100) (1/20)
      let bullG := if bullWacc > 1/100 then min (growth + 1/100) (bullWacc - 1/200) else growth
      let bearWacc := min (wacc + 1/100) (1/5)
      let bearG := max (growth - 1/100) (-(1/20))
      [("scenarios", MethodVal.cases
        [scenario "base" wacc growth, scenario "bull" bullWacc bullG,
         scenario "bear" bearWacc bearG])]
    else [])
  let merged := hints.foldl (fun acc p => assocSet acc p.1 p.2) dd
  { intrinsic_value := intrinsic
    valuation_methods := methods5
    assumptions := merged
    warnings := warnings1 }

/-- The `__init__` parameters of the `ValuationBundle` dataclass as declared in
`domain/models/financials.py`. -/
def valuationBundleFields : List String := ["intrinsic_value", "valuation_methods"]

/-- The keyword arguments passed to `ValuationBundle(...)` by the `return`
statement of `ValuationEngine.run` in `domain/services/calculations.py`. -/
def valuationRunReturnKwargs : List String :=
  ["intrinsic_value", "valuation_methods", "assumptions", "warnings"]

/-- A Python dataclass constructor call succeeds only when every keyword
argument names a declared field. -/
def dataclassAccepts (fields kwargs : List String) : Bool :=
  kwargs.all fields.contains

/-- Method `ValuationEngine.run`: dedup the three statement sequences, run the
valuation body, then construct the `ValuationBundle`; the construction raises
`TypeError` when the return statement passes a keyword argument the dataclass
does not declare. -/
def valuationRun (ds : FinancialDataset) (overrides hints : List (String × ℚ))
    (dd : List (String × ℚ)) : Except String ValuationOutput := do
  let incS ← dedupStatements ds.income_statements
  let bsS ← dedupStatements ds.balance_sheets
  let cfS ← dedupStatements ds.cash_flows
  let out := valuationCompute incS bsS cfS overrides hints dd
  if dataclassAccepts valuationBundleFields valuationRunReturnKwargs then .ok out
  else .error "TypeError: ValuationBundle.__init__() got an unexpected keyword argument \x27assumptions\x27"

/-! ### QA node and workflow state -/

/-- A rewrite request dict emitted by the QA stage (`missing_keys` defaults to
empty for the request shapes that do not carry it). -/
structure RewriteReq where
  stage : String
  reason : String
  missing_keys : List String := []
  suggested_action : String
deriving DecidableEq, Repr

/-- One entry of the QA `checks` list. -/
structure QACheck where
  key : String
  label : String
  status : String
  severity : String
deriving DecidableEq, Repr

/-- The `qa_report` dict assembled at the end of `qa.run`. -/
structure QAReport where
  passed : Bool
  checks : List QACheck
  missing_narratives : List String
  rewrite_requests : List RewriteReq
  warnings : List String
  short_narratives : List String
deriving Repr

/-- The `valuation` artifact as inspected by `_validate_valuation` (either a
`ValuationBundle` object or an equivalent dict; both branches of the source
extract the same two components). -/
structure ValuationArtifact where
  intrinsic_value : Option PyFloat := none
  valuation_methods : List (String × MethodVal) := []
deriving Repr

/-- The subset of the `ReportState` TypedDict read or written by `qa.run` and
`ReportWorkflow._apply_rerun_hooks`.  `financials`, `price_history` and
`anomalies` only ever feed Python truthiness tests in these functions, so they
are carried as booleans; the remaining TypedDict keys are never touched by the
embedded code. -/
structure ReportState where
  financials : Bool := false
  price_history : Bool := false
  ratios : Option RatioSummary := none
  valuation : Option ValuationArtifact := none
  news_digest : Option String := none
  qual_notes : Option String := none
  company_intro : Option String := none
  industry_analysis : Option String := none
  growth_analysis : Option String := none
  financial_analysis : Option String := none
  valuation_analysis : Option String := none
  risk_catalyst : Option String := none
  review_report : Option String := none
  anomalies : Bool := false
  markdown_report : Option String := none
  current_price : Option PyFloat := none
  qa_report : Option QAReport := none
  rewrite_requests : List RewriteReq := []
  qa_warnings : List String := []
  logs : List String := []
  errors : List String := []
deriving Repr

/-- Python truthiness of an optional string (`None` and `""` are falsy). -/
def truthyStr : Option String → Bool
  | none => false
  | some s => s ≠ ""

/-- Content test `_has_content(value)`: a string is content when it is non-blank after
stripping. -/
def hasContent : Option String → Bool
  | none => false
  | some s => s.trim ≠ ""

/-- Length test `_is_too_short(value)`: a string shorter than `MIN_NARRATIVE_CHARS = 140`
characters after stripping (non-strings are never "too short"). -/
def isTooShort : Option String → Bool
  | none => false
  | some s => s.trim.length < 140

/-- Substring test (used for the case-insensitive `https?://` search). -/
def containsSub (s pat : String) : Bool :=
  (s.splitOn pat).length > 1

/-- After a keyword match of `SOURCE_RE`, skip `\s*` and require a半/全角 colon. -/
def colonAfterWs (cs : List Char) : Bool :=
  match cs.dropWhile Char.isWhitespace with
  | c :: _ => c = ':' ∨ c = '：'
  | [] => false

/-- Scan for `(来源|source)\s*[:：]` in lower-cased text. -/
def sourceColonScan : List Char → Bool
  | [] => false
  | c :: rest =>
    (decide ((c :: rest).take 2 = ['来', '源']) && colonAfterWs ((c :: rest).drop 2))
    || (decide ((c :: rest).take 6 = ['s', 'o', 'u', 'r', 'c', 'e'])
        && colonAfterWs ((c :: rest).drop 6))
    || sourceColonScan rest

/-- Citation test `_has_citation(value)`: a URL scheme or a `来源:`/`source:` marker. -/
def hasCitation : Option String → Bool
  | none => false
  | some t =>
    let lower := t.toLower
    containsSub lower "http://" || containsSub lower "https://"
      || sourceColonScan lower.toList

/-- Python `repr` of a list of strings, as interpolated by the QA f-strings. -/
def pyListStr (l : List String) : String :=
  "[" ++ String.intercalate ", " (l.map fun k => "\x27" ++ k ++ "\x27") ++ "]"

/-- The value of a narrative section key in the state. -/
def narrField (s : ReportState) : String → Option String
  | "company_intro" => s.company_intro
  | "industry_analysis" => s.industry_analysis
  | "growth_analysis" => s.growth_analysis
  | "financial_analysis" => s.financial_analysis
  | "valuation_analysis" => s.valuation_analysis
  | _ => none

/-- The five narrative keys that appear in `CHECKS` (the sixth entry of
`NARRATIVE_KEYS`, `core_viewpoints`, is not in `CHECKS` and is never looped
over). -/
def narrativeCheckKeys : List String :=
  ["company_intro", "industry_analysis", "growth_analysis", "financial_analysis",
   "valuation_analysis"]

/-- One row of the `CHECKS` table together with its computed `present` bit. -/
structure CheckEval where
  key : String
  label : String
  critical : Bool
  present : Bool
deriving DecidableEq, Repr

/-- The `CHECKS` loop of `qa.run`: each key's label, criticality and presence
(narrative keys use `_has_content`, the citation keys use `_has_citation`, and
`news_quality` uses the news-digest validator `vd`). -/
def qaCheckEvals (vd : String → Bool) (s : ReportState) : List CheckEval :=
  [⟨"financials", "财报数据已加载", true, s.financials⟩,
   ⟨"price_history", "行情窗口可用", false, s.price_history⟩,
   ⟨"ratios", "财务比率已计算", true, s.ratios.isSome⟩,
   ⟨"valuation", "估值结果已生成", true, s.valuation.isSome⟩,
   ⟨"news_digest", "新闻摘要可用", true, truthyStr s.news_digest⟩,
   ⟨"news_quality", "新闻摘要格式合规", true, vd (s.news_digest.getD "")⟩,
   ⟨"qual_notes", "定性研究可用", true, truthyStr s.qual_notes⟩,
   ⟨"company_intro", "叙事段落: 公司简介", true, hasContent s.company_intro⟩,
   ⟨"industry_analysis", "叙事段落: 行业分析", true, hasContent s.industry_analysis⟩,
   ⟨"growth_analysis", "叙事段落: 成长性", true, hasContent s.growth_analysis⟩,
   ⟨"financial_analysis", "叙事段落: 财务分析", true, hasContent s.financial_analysis⟩,
   ⟨"valuation_analysis", "叙事段落: 估值解读", true, hasContent s.valuation_analysis⟩,
   ⟨"risk_catalyst", "风险与催化剂", true, truthyStr s.risk_catalyst⟩,
   ⟨"review_report", "复核报告可用", false, truthyStr s.review_report⟩,
   ⟨"anomalies", "异常检测结果可用", false, s.anomalies⟩,
   ⟨"markdown_report", "Markdown 报告已渲染", true, truthyStr s.markdown_report⟩,
   ⟨"citations_news", "新闻段落包含来源格式", false, hasCitation s.news_digest⟩,
   ⟨"citations_qual", "定性要点包含来源格式", false, hasCitation s.qual_notes⟩]

/-- The error string that `qa.run` strips from `errors` at the start of each
pass and that `_validate_valuation` re-appends when the valuation is empty. -/
def emptyValuationMsg : String := "QA: 估值结果为空或未计算"

/-- The `eps is None or eps != eps or eps <= 0` test of `_validate_valuation`
(symbolic CAGR values never occur among ratio entries — `sdiv`'s range is
NaN/finite — so the `pow` case is immaterial and treated as a positive real). -/
def epsInvalid : Option PyFloat → Bool
  | none => true
  | some PyFloat.nan => true
  | some PyFloat.ninf => true
  | some PyFloat.inf => false
  | some (PyFloat.val q) => q ≤ 0
  | some (PyFloat.pow _ _) => false

/-- Test `current_price in (None, 0)`. -/
def currentPriceMissing : Option PyFloat → Bool
  | none => true
  | some f => f.isZero

/-- Test `intrinsic is not None and intrinsic == intrinsic and intrinsic <= 0`
(the NaN self-equality test excludes NaN; `pow` values are treated as
positive reals, see `epsInvalid`). -/
def intrinsicNonPositive : Option PyFloat → Bool
  | some (PyFloat.val q) => q ≤ 0
  | some PyFloat.ninf => true
  | _ => false

/-- The `if not methods` test of `_validate_valuation`: the valuation artifact
is absent (so `state.get("valuation") or {}` yields an empty dict) or its
`valuation_methods` mapping is empty. -/
def valuationMethodsEmpty (s : ReportState) : Bool :=
  match s.valuation with
  | none => true
  | some v => v.valuation_methods.isEmpty

/-- Function `qa.run` (workflows/nodes/qa.py).  `vd` is `news.is_valid_news_digest`,
taken as a parameter: its regex normalisation belongs to the news subsystem
and every theorem below holds for an arbitrary validator. -/
def qaRun (vd : String → Bool) (s : ReportState) : ReportState :=
  let errs0 := s.errors.filter fun e => !e.startsWith emptyValuationMsg
  let logs0 := s.logs ++ ["QAAgent -> verify mandatory sections before exit"]
  let evals := qaCheckEvals vd s
  let checks := evals.map fun c =>
    QACheck.mk c.key c.label (if c.present then "ok" else "missing")
      (if c.critical then "critical" else "warning")
  let loopErrors := evals.filterMap fun c =>
    if c.critical && !c.present then some s!"QA: {c.label} 缺失" else none
  let errs1 := errs0 ++ loopErrors
  let missingNarr := narrativeCheckKeys.filter fun k => !hasContent (narrField s k)
  let shortNarr := narrativeCheckKeys.filter fun k =>
    hasContent (narrField s k) && isTooShort (narrField s k)
  let logs1 := logs0 ++
    (if !missingNarr.isEmpty then
      [s!"QAAgent -> narrative sections missing: {pyListStr missingNarr}"] else [])
  let rw0 : List RewriteReq :=
    if !missingNarr.isEmpty then
      [⟨"narrative", "叙事段落缺失或为空", missingNarr, "rerun_narrative_node"⟩]
    else []
  let shortMsg := s!"叙事篇幅偏短(<140字)：{pyListStr shortNarr}"
  let warn1 := s.qa_warnings ++
    (if !shortNarr.isEmpty && !s.qa_warnings.contains shortMsg then [shortMsg] else [])
  let rw1 := rw0 ++
    (if !shortNarr.isEmpty then
      [⟨"narrative", shortMsg, shortNarr, "rerun_narrative_node"⟩] else [])
  -- _validate_valuation
  let methodsEmpty := valuationMethodsEmpty s
  let epsEntry :=
    match s.ratios with
    | some r => r.ratios.lookup "eps"
    | none => none
  let afterVal :=
    if methodsEmpty then
      let errs2 := errs1 ++ (if !errs1.contains emptyValuationMsg then [emptyValuationMsg] else [])
      let rw2 := rw1 ++ [⟨"valuation", "估值结果为空或未计算", [], "rerun_valuation_node"⟩]
      (errs2, warn1, rw2, logs1)
    else
      let methods := (s.valuation.map (·.valuation_methods)).getD []
      let dcfReason := "DCF 未生成（缺少 FCF/净债务/股本）"
      let evReason := "EV/EBITDA 未生成（EBITDA<=0 或缺少净债务/股本）"
      let missingMethods :=
        (if (methods.lookup "dcf").isNone && !warn1.contains dcfReason then [dcfReason] else [])
        ++ (if (methods.lookup "ev_ebitda").isNone && !warn1.contains evReason then [evReason] else [])
      let warn2 := warn1 ++ missingMethods
      let peBad := (methods.lookup "pe_band").isSome
        && (epsInvalid epsEntry || currentPriceMissing s.current_price)
      let peMsg := "QA: pe_band 估值缺少有效 EPS 或价格，需重算"
      let errs2 := errs1 ++ (if peBad && !errs1.contains peMsg then [peMsg] else [])
      let rw2 := rw1 ++
        (if peBad then [⟨"valuation", "pe_band 缺少 EPS/price", [], "rerun_valuation_node"⟩] else [])
      let negCond := intrinsicNonPositive (s.valuation.bind (·.intrinsic_value))
        && (match s.current_price with
            | some p => p.pgt (val 0)
            | none => false)
      let negMsg := "Warning: 内在价值为负但现价为正（常见于高风险/重组预期场景），请人工复核估值假设"
      let warn3 := warn2 ++ (if negCond && !warn2.contains negMsg then [negMsg] else [])
      let logs2 := logs1 ++
        (if negCond then ["QAAgent -> flagged negative intrinsic vs positive price (warning only)"] else [])
      (errs2, warn3, rw2, logs2)
  let errsF := afterVal.1
  let warnV := afterVal.2.1
  let rwV := afterVal.2.2.1
  let logsF := afterVal.2.2.2
  -- invalid news digest → news rewrite request
  let newsBad := !vd (s.news_digest.getD "")
  let newsMsg := "新闻摘要格式异常或含占位符，建议重跑新闻节点"
  let warnF := warnV ++ (if newsBad && !warnV.contains newsMsg then [newsMsg] else [])
  let rwF := rwV ++
    (if newsBad then [⟨"news_fetch_mapreduce", newsMsg, [], "rerun_news_node"⟩] else [])
  let report : QAReport :=
    { passed := !checks.any (fun c => c.status == "missing")
      checks := checks
      missing_narratives := missingNarr
      rewrite_requests := rwF
      warnings := warnF
      short_narratives := shortNarr }
  { s with
    logs := logsF
    errors := errsF
    rewrite_requests := rwF
    qa_warnings := warnF
    qa_report := some report }

/-! ### Post-run rerun hooks -/

/-- The stage handlers invoked by `_apply_rerun_hooks` other than `qa.run`.
They call external collaborators (LLM gateway, data provider, renderer), so
the hook theorems hold for arbitrary handler functions. -/
structure ChainHandlers where
  news : ReportState → ReportState
  qual_research : ReportState → ReportState
  narrative : ReportState → ReportState
  reviewer : ReportState → ReportState
  writing : ReportState → ReportState
  valuation : ReportState → ReportState

/-- Test `any(req.get("suggested_action") == action for req in rewrite_requests)`. -/
def wantsAction (s : ReportState) (action : String) : Bool :=
  s.rewrite_requests.any fun r => r.suggested_action == action

/-- Method `ReportWorkflow._apply_rerun_hooks`: inspect `rewrite_requests`, run the
news chain, the valuation chain and/or the narrative chain (the narrative
chain is suppressed when a valuation rerun fires), then re-render Markdown
when a QA or review report is present.  Besides the final state it returns an
instrumentation trace naming, in order, the branches that fired (each branch
also appends its distinctive log line, exactly as the source does). -/
def applyRerunHooks (h : ChainHandlers) (vd : String → Bool) (state : ReportState) :
    ReportState × List String :=
  let wantsNarrative := wantsAction state "rerun_narrative_node"
  let wantsValuation := wantsAction state "rerun_valuation_node"
  let wantsNews := wantsAction state "rerun_news_node"
  let s1 :=
    if wantsNews then
      qaRun vd (h.writing (h.reviewer (h.narrative (h.qual_research (h.news
        { state with logs := state.logs ++
          ["PostRun -> rerunning news/qual/narrative/reviewer/writing/qa due to news rewrite request"] })))))
    else state
  let s2 :=
    if wantsValuation then
      qaRun vd (h.writing (h.reviewer (h.narrative (h.valuation
        { s1 with logs := s1.logs ++
          ["PostRun -> rerunning valuation/narrative/reviewer/writing/qa due to valuation rewrite request"] }))))
    else s1
  let s3 :=
    if wantsNarrative && !wantsValuation then
      qaRun vd (h.writing (h.reviewer (h.narrative
        { s2 with logs := s2.logs ++
          ["PostRun -> rerunning narrative/reviewer/writing/qa due to rewrite request"] })))
    else s2
  let rerender := s3.qa_report.isSome || truthyStr s3.review_report
  let s4 :=
    if rerender then
      h.writing { s3 with logs := s3.logs ++
        ["PostRun -> re-rendering Markdown to include QA/Review summaries"] }
    else s3
  (s4,
   (if wantsNews then ["news_chain"] else [])
   ++ (if wantsValuation then ["valuation_chain"] else [])
   ++ (if wantsNarrative && !wantsValuation then ["narrative_chain"] else [])
   ++ (if rerender then ["re_render"] else []))

/-! ### Concrete fixtures -/

/-- A complete single-period dataset with positive EPS, EBITDA, FCF, shares
and price (mirroring the repository test fixture values). -/
def fixtureIncome : FinancialStatement :=
  { ticker := "TEST", period := ⟨2022, 12, 31⟩, statement_type := "IS",
    metrics := [("revenue", 1100), ("ebitda", 264), ("net_income", 132)] }

/-- The balance sheet of the fixture dataset, with dataset-embedded DCF
assumptions. -/
def fixtureBalance : FinancialStatement :=
  { ticker := "TEST", period := ⟨2022, 12, 31⟩, statement_type := "BS",
    metrics := [("cash_and_equivalents", 120), ("short_term_debt", 160),
                ("long_term_debt", 260), ("shares_outstanding", 100),
                ("price", 15), ("total_equity", 820), ("wacc", 1/10),
                ("g", 2/25), ("terminal_growth", 3/100), ("forecast_years", 5)] }

/-- The cash-flow statement of the fixture dataset. -/
def fixtureCashflow : FinancialStatement :=
  { ticker := "TEST", period := ⟨2022, 12, 31⟩, statement_type := "CF",
    metrics := [("free_cash_flow", 132)] }

/-- The complete fixture dataset. -/
def fixtureDataset : FinancialDataset :=
  { ticker := "TEST", income_statements := [fixtureIncome],
    balance_sheets := [fixtureBalance], cash_flows := [fixtureCashflow] }

/-! ### Claim fixtures and auxiliary definitions -/

/-- A statement with a default (absent) `update_flag` and `announced_date`. -/
def dupStatementA : FinancialStatement :=
  { ticker := "T", period := ⟨2022, 12, 31⟩, statement_type := "IS",
    metrics := [("revenue", 100)] }

/-- A revision of the same period, also without revision metadata. -/
def dupStatementB : FinancialStatement :=
  { ticker := "T", period := ⟨2022, 12, 31⟩, statement_type := "IS",
    metrics := [("revenue", 200)] }

/-- A state carrying the empty-valuation error from an earlier QA pass,
together with a now non-empty valuation methods mapping. -/
def c4State : ReportState :=
  { errors := [emptyValuationMsg],
    valuation := some { valuation_methods := [("dcf", MethodVal.fields [])] } }

/-- A post-base-pass state whose QA pass produced both a news-chain and a
valuation-chain rewrite request. -/
def c3State : ReportState :=
  { rewrite_requests :=
      [⟨"news_fetch_mapreduce", "新闻摘要格式异常或含占位符，建议重跑新闻节点", [], "rerun_news_node"⟩,
       ⟨"valuation", "估值结果为空或未计算", [], "rerun_valuation_node"⟩] }

/-- Pass-through stage handlers for evaluating the rerun hook structure on a
concrete state. -/
def idHandlers : ChainHandlers := ⟨id, id, id, id, id, id⟩

/-- Modelled from the spec for claim C5 (refinement comparison only): compute
the CAGR from the annual-filtered subsequence exactly when that subsequence
has at least two non-missing points with strictly positive start and end
values, otherwise from the full series, with the same
`(end/start) ** (1/years) - 1` core. -/
def claimCagr (rows : List Row) (col : String) : PyFloat :=
  let annual := filterAnnual rows
  let s := nonNullSeries annual col
  let annualOk := decide (2 ≤ s.length) &&
    (match s.head?, s.getLast? with
     | some a, some b => decide (0 < a.2) && decide (0 < b.2)
     | _, _ => false)
  cagrFromDf (if annualOk then annual else rows) col

/-- A June 2022 quarterly income statement (revenue 100). -/
def c5IncomeA : FinancialStatement :=
  { ticker := "T5", period := ⟨2022, 6, 30⟩, statement_type := "IS",
    metrics := [("revenue", 100)] }

/-- A June 2023 quarterly income statement (revenue 110). -/
def c5IncomeB : FinancialStatement :=
  { ticker := "T5", period := ⟨2023, 6, 30⟩, statement_type := "IS",
    metrics := [("revenue", 110)] }

/-- The single annual (December) income statement (revenue 50). -/
def c5IncomeC : FinancialStatement :=
  { ticker := "T5", period := ⟨2023, 12, 31⟩, statement_type := "IS",
    metrics := [("revenue", 50)] }

/-- A complete dataset whose annual-filtered income subsequence has exactly
one point while the full series has three. -/
def c5Dataset : FinancialDataset :=
  { ticker := "T5", income_statements := [c5IncomeA, c5IncomeB, c5IncomeC],
    balance_sheets := [fixtureBalance], cash_flows := [fixtureCashflow] }

/-- A complete dataset whose income statements duplicate a period with equal
default update flags and `None` announcement dates. -/
def c6Dataset : FinancialDataset :=
  { ticker := "T", income_statements := [dupStatementA, dupStatementB],
    balance_sheets := [fixtureBalance], cash_flows := [fixtureCashflow] }

/-- Shape predicate: the value is NaN or a finite rational (never inf). -/
def NanOrVal (v : PyFloat) : Prop := v = PyFloat.nan ∨ ∃ q, v = PyFloat.val q

/-- A balance sheet carrying price and shares outstanding but neither cash
nor any debt field, so market cap is derivable while net debt is undefined. -/
def c10Balance : FinancialStatement :=
  { ticker := "TEST", period := ⟨2022, 12, 31⟩, statement_type := "BS",
    metrics := [("shares_outstanding", 100), ("price", 15)] }

/-- A complete dataset with known market cap and undefined net debt. -/
def c10Dataset : FinancialDataset :=
  { ticker := "TEST", income_statements := [fixtureIncome],
    balance_sheets := [c10Balance], cash_flows := [fixtureCashflow] }

/-! ### C1 -/

/-- C1: the claim that `ValuationEngine.run` never raises and returns a
`ValuationBundle` exposing `intrinsic_value`, `valuation_methods`,
`assumptions` and `warnings` fails on the code: the dataclass in
`domain/models/financials.py` declares only the first two fields, so the
`return ValuationBundle(..., assumptions=..., warnings=...)` statement raises
`TypeError` on every invocation — evaluated here on a complete dataset with
no overrides and no hints. -/
theorem C1_valuation_run_raises_typeerror :
    valuationRun fixtureDataset [] [] [] =
      .error "TypeError: ValuationBundle.__init__() got an unexpected keyword argument \x27assumptions\x27" := by
  rfl

/-! ### C2 -/

/-- C2: the claim that statement deduplication returns exactly one statement
per distinct period for every input collection fails on the code: when two
statements share a period with equal (defaulted) update flags and `None`
announcement dates, the tie-break comparison `ann >= prev_ann` raises
`TypeError` instead of returning (the `getattr` default `datetime.min.date()`
never applies because the dataclass attribute always exists). -/
theorem C2_dedup_raises_on_none_announced_dates :
    dedupStatements [dupStatementA, dupStatementB] =
      .error "TypeError: \x27>=\x27 not supported between instances of NoneType and date" := by
  rfl

/-! ### C9 -/

/-- Membership in a list extended by the conditional self-append idiom
`l ++ (if msg not in l then [msg] else [])`. -/
lemma mem_append_contains_if (l : List String) (a : String) :
    a ∈ l ++ (if !l.contains a then [a] else []) := by
  by_cases hc : a ∈ l <;> simp [hc]

/-- C9: for every workflow state whose valuation artifact has an empty or
missing `valuation_methods` mapping, the QA stage appends the critical error
string `QA: 估值结果为空或未计算` to `errors` and adds a rewrite request with
stage `valuation` and `suggested_action = rerun_valuation_node`. -/
theorem C9_qa_empty_valuation_triggers_rerun (vd : String → Bool) (s : ReportState)
    (h : valuationMethodsEmpty s = true) :
    emptyValuationMsg ∈ (qaRun vd s).errors ∧
    (⟨"valuation", "估值结果为空或未计算", [], "rerun_valuation_node"⟩ : RewriteReq) ∈
      (qaRun vd s).rewrite_requests := by
  unfold qaRun
  simp only [h, if_true]
  constructor
  · exact mem_append_contains_if _ _
  · simp [List.mem_append]

/-- Witness for C9 at a concrete state (the empty initial state, whose
valuation artifact is missing) and a concrete digest validator. -/
theorem C9_qa_empty_valuation_triggers_rerun_witness :
    emptyValuationMsg ∈ (qaRun (fun _ => true) {}).errors ∧
    (⟨"valuation", "估值结果为空或未计算", [], "rerun_valuation_node"⟩ : RewriteReq) ∈
      (qaRun (fun _ => true) {}).rewrite_requests :=
  C9_qa_empty_valuation_triggers_rerun (fun _ => true) {} rfl

/-! ### C4 -/

/-- C4 counterexample: the claim that the QA stage extends `errors`
append-only fails — on a state whose `errors` holds the empty-valuation error
appended by an earlier QA pass, `qa.run` removes that entry (line
`errors[:] = [e for e in errors if not e.startswith(...)]`), so the output
list no longer contains it. -/
theorem C4_qa_errors_append_only_counterexample :
    c4State.errors = [emptyValuationMsg] ∧
    (qaRun (fun _ => true) c4State).errors.contains emptyValuationMsg = false := by
  exact ⟨rfl, by with_unfolding_all rfl⟩

/-- Decomposition of a double append into a single appended suffix. -/
lemma exists_suffix_append2 (x a b : List String) : ∃ t, (x ++ a) ++ b = x ++ t :=
  ⟨a ++ b, List.append_assoc x a b⟩

/-- Decomposition of a triple append into a single appended suffix. -/
lemma exists_suffix_append3 (x a b c : List String) : ∃ t, ((x ++ a) ++ b) ++ c = x ++ t :=
  ⟨a ++ b ++ c, by simp⟩

/-- C4 amended: for the QA stage handler and every input state, `logs` extends
append-only, and `errors` extends append-only after the stage first removes
the entries beginning with its own empty-valuation error marker. -/
theorem C4_qa_logs_errors_append_only_amended (vd : String → Bool) (s : ReportState) :
    (∃ l, (qaRun vd s).logs = s.logs ++ l) ∧
    (∃ e, (qaRun vd s).errors =
      (s.errors.filter fun x => !x.startsWith emptyValuationMsg) ++ e) := by
  unfold qaRun
  by_cases h : valuationMethodsEmpty s = true
  · simp only [h, if_true]
    exact ⟨exists_suffix_append2 _ _ _, exists_suffix_append2 _ _ _⟩
  · have h2 : valuationMethodsEmpty s = false := by simpa using h
    simp only [h2, Bool.false_eq_true, if_false]
    exact ⟨exists_suffix_append3 _ _ _ _, exists_suffix_append2 _ _ _⟩

/-! ### C3 -/

/-- C3 counterexample: the claim that the post-run rerun step selects exactly
one of the four rerun policies fails — on a state with both a news and a
valuation rewrite request, the hooks run the news chain, then the valuation
chain, and then the final re-render as well (three policies, not one). -/
theorem C3_rerun_exactly_one_counterexample :
    (applyRerunHooks idHandlers (fun _ => true) c3State).2 =
      ["news_chain", "valuation_chain", "re_render"] ∧
    ((applyRerunHooks idHandlers (fun _ => true) c3State).2.length = 1 → False) := by
  constructor
  · with_unfolding_all rfl
  · intro hlen
    rw [show (applyRerunHooks idHandlers (fun _ => true) c3State).2 =
      ["news_chain", "valuation_chain", "re_render"] from by with_unfolding_all rfl] at hlen
    simp at hlen

/-- Firing pattern of the four rerun branches: no branch fires twice, and each
chain fires exactly under its own condition. -/
lemma firedShape (a b c d : Bool) :
    ((if a then ["news_chain"] else []) ++ (if b then ["valuation_chain"] else [])
      ++ (if c then ["narrative_chain"] else []) ++ (if d then ["re_render"] else [])).Nodup ∧
    ("news_chain" ∈ ((if a then ["news_chain"] else []) ++ (if b then ["valuation_chain"] else [])
      ++ (if c then ["narrative_chain"] else []) ++ (if d then ["re_render"] else [])) ↔ a = true) ∧
    ("valuation_chain" ∈ ((if a then ["news_chain"] else []) ++ (if b then ["valuation_chain"] else [])
      ++ (if c then ["narrative_chain"] else []) ++ (if d then ["re_render"] else [])) ↔ b = true) ∧
    ("narrative_chain" ∈ ((if a then ["news_chain"] else []) ++ (if b then ["valuation_chain"] else [])
      ++ (if c then ["narrative_chain"] else []) ++ (if d then ["re_render"] else [])) ↔ c = true) := by
  cases a <;> cases b <;> cases c <;> cases d <;> decide

/-- C3 amended: the rerun step evaluates the chains independently rather than
exclusively — the news chain fires iff a news rewrite request is present, the
valuation chain iff a valuation request is present, and the narrative chain
iff a narrative request is present and no valuation request is; the final
writing re-render additionally fires whenever a QA or review report is set
afterwards.  Each rerun category still executes at most once per invocation
(the fired-branch trace has no duplicates). -/
theorem C3_rerun_chain_firing_amended (h : ChainHandlers) (vd : String → Bool)
    (s : ReportState) :
    (applyRerunHooks h vd s).2.Nodup ∧
    ("news_chain" ∈ (applyRerunHooks h vd s).2 ↔ wantsAction s "rerun_news_node" = true) ∧
    ("valuation_chain" ∈ (applyRerunHooks h vd s).2 ↔
      wantsAction s "rerun_valuation_node" = true) ∧
    ("narrative_chain" ∈ (applyRerunHooks h vd s).2 ↔
      (wantsAction s "rerun_narrative_node" && !wantsAction s "rerun_valuation_node") = true) := by
  obtain ⟨d, hd⟩ : ∃ d : Bool, (applyRerunHooks h vd s).2 =
      (if wantsAction s "rerun_news_node" then ["news_chain"] else [])
      ++ (if wantsAction s "rerun_valuation_node" then ["valuation_chain"] else [])
      ++ (if wantsAction s "rerun_narrative_node" && !wantsAction s "rerun_valuation_node"
          then ["narrative_chain"] else [])
      ++ (if d then ["re_render"] else []) := ⟨_, rfl⟩
  rw [hd]
  exact firedShape _ _ _ d

/-! ### C7 -/

/-- Bridge from the zipped-list present value of `_dcf_fcff` to a finite sum. -/
lemma pvList_eq_sum (f g : ℕ → ℚ) (n : ℕ) :
    ((((List.range n).map f).zip ((List.range n).map g)).map fun p => p.1 / p.2).sum
      = ∑ t in Finset.range n, f t / g t := by
  induction n with
  | zero => simp
  | succ m ih =>
    rw [List.range_succ, List.map_append, List.map_append,
        List.zip_append (by simp), List.map_append, List.sum_append,
        Finset.sum_range_succ, ih]
    simp

/-- The final forecast cash flow `cash_flows[-1]` of `_dcf_fcff`. -/
lemma rangeMap_getLastD (f : ℕ → ℚ) (k : ℕ) :
    ((List.range (k + 1)).map f).getLastD 0 = f k := by
  rw [List.range_succ, List.map_append]
  simp

/-- Strict antitonicity of the discounted forecast sum in the discount rate. -/
lemma pvSum_strict (fcf g w1 w2 : ℚ) (n : ℕ) (hf : 0 < fcf) (hg : 0 < 1 + g)
    (hw1 : 0 < 1 + w1) (h12 : w1 < w2) (hn : 1 ≤ n) :
    ∑ t in Finset.range n, fcf * (1+g)^(t+1) / (1+w2)^(t+1)
      < ∑ t in Finset.range n, fcf * (1+g)^(t+1) / (1+w1)^(t+1) := by
  apply Finset.sum_lt_sum_of_nonempty (Finset.nonempty_range_iff.mpr (by omega))
  intro t _
  have hcf : 0 < fcf * (1+g)^(t+1) := mul_pos hf (pow_pos hg _)
  have hp1 : 0 < (1+w1)^(t+1) := pow_pos hw1 _
  have hlt : (1+w1)^(t+1) < (1+w2)^(t+1) :=
    pow_lt_pow_left₀ (by linarith) (le_of_lt hw1) (Nat.succ_ne_zero t)
  exact div_lt_div_of_pos_left hcf hp1 hlt

/-- Strict antitonicity of the discounted Gordon terminal value in the
discount rate. -/
lemma termVal_strict (tcf tg w1 w2 : ℚ) (n : ℕ) (htcf : 0 < tcf)
    (h1 : tg < w1) (h12 : w1 < w2) (hw1 : 0 < 1 + w1) :
    tcf/(w2 - tg)/(1+w2)^n < tcf/(w1 - tg)/(1+w1)^n := by
  rw [div_div, div_div]
  apply div_lt_div_of_pos_left htcf
  · exact mul_pos (by linarith) (pow_pos hw1 n)
  · exact mul_lt_mul (by linarith) (pow_le_pow_left₀ (le_of_lt hw1) (by linarith) n)
      (pow_pos hw1 n) (by linarith)

/-- C7 counterexample: the claim asserts strict decrease of the per-share DCF
value in the discount rate for arbitrary fixed `fcf`, but with a negative
`fcf` the per-share value strictly increases — at
`fcf = -100, g = 0, tg = 0, years = 1, net_debt = 0, shares = 1` the value at
`wacc = 5%` is `-2000` and at `wacc = 10%` it is `-1000`. -/
theorem C7_dcf_monotonicity_counterexample :
    (dcfFcff (-100) 0 (1/20) 0 1 0 1).2 = PyFloat.val (-2000) ∧
    (dcfFcff (-100) 0 (1/10) 0 1 0 1).2 = PyFloat.val (-1000) ∧
    ¬((-1000 : ℚ) < -2000) := by
  refine ⟨by with_unfolding_all rfl, by with_unfolding_all rfl, by norm_num⟩

/-- C7 amended: with `fcf`, shares, `1+g` and `1+terminal_growth` strictly
positive, the per-share DCF fair value of `_dcf_fcff` is strictly decreasing
in the discount rate over `terminal_growth < w1 < w2`, for a forecast horizon
of at least one year and any fixed net debt. -/
theorem C7_dcf_monotonicity_amended (fcf g w1 w2 tg netDebt shares : ℚ) (years : ℕ)
    (hy : 1 ≤ years) (hf : 0 < fcf) (hs : 0 < shares) (hg : -1 < g) (htg : -1 < tg)
    (h1 : tg < w1) (h12 : w1 < w2) :
    ∃ v1 v2, (dcfFcff fcf g w1 tg years netDebt shares).2 = PyFloat.val v1 ∧
      (dcfFcff fcf g w2 tg years netDebt shares).2 = PyFloat.val v2 ∧ v2 < v1 := by
  obtain ⟨k, rfl⟩ : ∃ k, years = k + 1 := ⟨years - 1, by omega⟩
  have hw1 : 0 < 1 + w1 := by linarith
  have hw2 : 0 < 1 + w2 := by linarith
  have hgg : 0 < 1 + g := by linarith
  have hguard1 : ¬(k + 1 = 0 ∨ w1 ≤ tg) := by
    push_neg
    exact ⟨Nat.succ_ne_zero k, by linarith⟩
  have hguard2 : ¬(k + 1 = 0 ∨ w2 ≤ tg) := by
    push_neg
    exact ⟨Nat.succ_ne_zero k, by linarith⟩
  unfold dcfFcff
  rw [if_neg hguard1, if_neg hguard2]
  simp only [hs, if_pos]
  refine ⟨_, _, rfl, rfl, ?_⟩
  have hpv := pvSum_strict fcf g w1 w2 (k+1) hf hgg hw1 h12 (by omega)
  have hterm := termVal_strict (fcf * (1+g)^(k+1) * (1+tg)) tg w1 w2 (k+1)
    (mul_pos (mul_pos hf (pow_pos hgg _)) (by linarith)) h1 h12 hw1
  rw [pvList_eq_sum, pvList_eq_sum]
  simp only [rangeMap_getLastD]
  have hmain : ∀ x y : ℚ, x < y → x / shares < y / shares := fun x y hxy =>
    div_lt_div_of_pos_right hxy hs
  exact hmain _ _ (by linarith [hpv, hterm])

/-- Witness for C7 at the spec fixture: `fcf = 132, g = 8%, tg = 3%,
years = 5, net_debt = 300, shares = 100` and discount rates `10% < 12%`. -/
theorem C7_dcf_monotonicity_amended_witness :
    ∃ v1 v2, (dcfFcff 132 (2/25) (1/10) (3/100) 5 300 100).2 = PyFloat.val v1 ∧
      (dcfFcff 132 (2/25) (3/25) (3/100) 5 300 100).2 = PyFloat.val v2 ∧ v2 < v1 :=
  C7_dcf_monotonicity_amended 132 (2/25) (1/10) (3/25) (3/100) 300 100 5
    (by norm_num) (by norm_num) (by norm_num) (by norm_num) (by norm_num)
    (by norm_num) (by norm_num)

/-! ### C5 -/

set_option maxRecDepth 8000

/-- C5 counterexample: the claim says the CAGR falls back to the full series
when the annual subsequence has fewer than two usable points, but the code
prefers the annual subsequence whenever it is merely non-empty — on a dataset
whose annual subsequence has exactly one point, `GrowthCalculator.calculate`
returns NaN for `revenue_cagr` while the claimed rule yields `-50%` from the
full series. -/
theorem C5_cagr_selection_counterexample :
    (growthCalculate c5Dataset).map (fun gc => gc.metrics.lookup "revenue_cagr") =
      Except.ok (some PyFloat.nan) ∧
    claimCagr (sortByPeriod (frameFromStatements [c5IncomeA, c5IncomeB, c5IncomeC]
      ["revenue", "net_income"])) "revenue" = PyFloat.val (-(1/2)) ∧
    PyFloat.nan ≠ PyFloat.val (-(1/2)) := by
  refine ⟨by with_unfolding_all rfl, by with_unfolding_all rfl, by simp⟩

/-- The symbolic CAGR value is never the NaN sentinel. -/
lemma powFloat_ne_nan (b : ℚ) (y : ℕ) : powFloat b y ≠ PyFloat.nan := by
  unfold powFloat
  split <;> simp

/-- C5 amended: `GrowthCalculator.calculate` computes each CAGR metric from
the annual-filtered subsequence exactly when that subsequence is non-empty
(otherwise from the full series), and `_cagr_from_df` yields NaN exactly when
the chosen frame has fewer than two rows, the metric has no non-missing
value, or the first or last non-missing value is not strictly positive;
otherwise the value is `(end/start) ** (1/years) - 1`. -/
theorem C5_cagr_selection_amended (ds : FinancialDataset) (incS : List FinancialStatement)
    (hc : ds.isComplete = true)
    (h1 : dedupStatements ds.income_statements = Except.ok incS)
    (hne : (frameFromStatements incS ["revenue", "net_income"]).isEmpty = false) :
    (growthCalculate ds = Except.ok (growthMetricsOf incS) ∧
      (growthMetricsOf incS).metrics.lookup "revenue_cagr" = some (cagrFromDf
        (if (filterAnnual (sortByPeriod (frameFromStatements incS ["revenue", "net_income"]))).isEmpty
         then sortByPeriod (frameFromStatements incS ["revenue", "net_income"])
         else filterAnnual (sortByPeriod (frameFromStatements incS ["revenue", "net_income"])))
        "revenue") ∧
      (growthMetricsOf incS).metrics.lookup "net_income_cagr" = some (cagrFromDf
        (if (filterAnnual (sortByPeriod (frameFromStatements incS ["revenue", "net_income"]))).isEmpty
         then sortByPeriod (frameFromStatements incS ["revenue", "net_income"])
         else filterAnnual (sortByPeriod (frameFromStatements incS ["revenue", "net_income"])))
        "net_income")) ∧
    (∀ rows col, cagrFromDf rows col = PyFloat.nan ↔
      ((nonNullSeries rows col).isEmpty = true ∨ rows.length < 2 ∨
       (∃ p ∈ (nonNullSeries rows col).head?, p.2 ≤ 0) ∨
       (∃ p ∈ (nonNullSeries rows col).getLast?, p.2 ≤ 0))) := by
  constructor
  · refine ⟨?_, ?_, ?_⟩
    · unfold growthCalculate
      rw [hc, h1]
      rfl
    · unfold growthMetricsOf
      simp only [hne, Bool.false_eq_true, if_false]
      rfl
    · unfold growthMetricsOf
      simp only [hne, Bool.false_eq_true, if_false]
      rfl
  · intro rows col
    unfold cagrFromDf
    by_cases hemp : ((nonNullSeries rows col).isEmpty || decide (rows.length < 2)) = true
    · simp only [hemp, if_true]
      constructor
      · intro _
        have hemp2 := hemp
        simp only [Bool.or_eq_true] at hemp2
        rcases hemp2 with h | h
        · exact Or.inl h
        · exact Or.inr (Or.inl (by simpa using h))
      · intro _
        trivial
    · have hemp2 := hemp
      simp only [Bool.or_eq_true, not_or, Bool.not_eq_true] at hemp2
      obtain ⟨hser, hlen⟩ := hemp2
      have hemp3 : ((nonNullSeries rows col).isEmpty || decide (rows.length < 2)) = false := by
        simpa using hemp
      simp only [hemp3, Bool.false_eq_true, if_false]
      cases hs : nonNullSeries rows col with
      | nil => simp [hs] at hser
      | cons p rest =>
        obtain ⟨lp, hlp⟩ : ∃ lp, (p :: rest).getLast? = some lp :=
          ⟨(p :: rest).getLast (by simp), List.getLast?_eq_getLast _ _⟩
        simp only [hs, List.head?_cons, hlp]
        by_cases hpos : (decide (p.2 ≤ 0) || decide (lp.2 ≤ 0)) = true
        · simp only [hpos, if_true]
          constructor
          · intro _
            have hpos2 := hpos
            simp only [Bool.or_eq_true] at hpos2
            rcases hpos2 with h | h
            · exact Or.inr (Or.inr (Or.inl ⟨p, by simp, by simpa using h⟩))
            · exact Or.inr (Or.inr (Or.inr ⟨lp, by simp, by simpa using h⟩))
          · intro _
            trivial
        · have hpos3 : (decide (p.2 ≤ 0) || decide (lp.2 ≤ 0)) = false := by
            simpa using hpos
          simp only [hpos3, Bool.false_eq_true, if_false]
          constructor
          · intro hcontra
            exact absurd hcontra (powFloat_ne_nan _ _)
          · intro hrhs
            simp only [Bool.or_eq_true, not_or, Bool.not_eq_true, decide_eq_false_iff_not,
              not_le] at hpos
            rcases hrhs with h | h | ⟨q, hq, hq2⟩ | ⟨q, hq, hq2⟩
            · simp at h
            · simp only [decide_eq_false_iff_not] at hlen
              exact absurd h hlen
            · simp only [Option.mem_def, Option.some_inj] at hq
              subst hq
              linarith [hpos.1]
            · simp only [Option.mem_def, hlp, Option.some_inj] at hq
              subst hq
              linarith [hpos.2]

/-- Witness for the amended C5 at the fixture dataset. -/
theorem C5_cagr_selection_amended_witness :
    (growthCalculate fixtureDataset = Except.ok (growthMetricsOf [fixtureIncome]) ∧
      (growthMetricsOf [fixtureIncome]).metrics.lookup "revenue_cagr" = some (cagrFromDf
        (if (filterAnnual (sortByPeriod (frameFromStatements [fixtureIncome] ["revenue", "net_income"]))).isEmpty
         then sortByPeriod (frameFromStatements [fixtureIncome] ["revenue", "net_income"])
         else filterAnnual (sortByPeriod (frameFromStatements [fixtureIncome] ["revenue", "net_income"])))
        "revenue") ∧
      (growthMetricsOf [fixtureIncome]).metrics.lookup "net_income_cagr" = some (cagrFromDf
        (if (filterAnnual (sortByPeriod (frameFromStatements [fixtureIncome] ["revenue", "net_income"]))).isEmpty
         then sortByPeriod (frameFromStatements [fixtureIncome] ["revenue", "net_income"])
         else filterAnnual (sortByPeriod (frameFromStatements [fixtureIncome] ["revenue", "net_income"])))
        "net_income")) ∧
    (∀ rows col, cagrFromDf rows col = PyFloat.nan ↔
      ((nonNullSeries rows col).isEmpty = true ∨ rows.length < 2 ∨
       (∃ p ∈ (nonNullSeries rows col).head?, p.2 ≤ 0) ∨
       (∃ p ∈ (nonNullSeries rows col).getLast?, p.2 ≤ 0))) :=
  C5_cagr_selection_amended fixtureDataset [fixtureIncome] rfl
    (by with_unfolding_all rfl) rfl

/-! ### C6 -/

/-- Being NaN characterises the NaN constructor. -/
lemma eq_nan_of_isNan (v : PyFloat) (h : v.isNan = true) : v = PyFloat.nan := by
  cases v <;> simp_all [PyFloat.isNan]

/-- Safe division returns NaN whenever the denominator is NaN or zero. -/
lemma sdiv_nan_denom (a b : PyFloat) (h : (b.isNan || b.isZero) = true) :
    sdiv a b = PyFloat.nan := by
  unfold sdiv
  simp only [Bool.or_eq_true] at h
  rcases h with h1 | h1 <;> simp [h1]

/-- C6 counterexample: the claim that `RatioCalculator.calculate` never raises
on a complete dataset fails — statement deduplication inside it raises
`TypeError` on duplicated periods with `None` announcement dates. -/
theorem C6_ratio_never_raises_counterexample :
    c6Dataset.isComplete = true ∧
    ratioCalculate c6Dataset =
      .error "TypeError: \x27>=\x27 not supported between instances of NoneType and date" := by
  exact ⟨rfl, rfl⟩

/-- C6 amended: provided the statement dedup of each sequence succeeds (all
announcement-date comparisons well-defined), `RatioCalculator.calculate` on a
complete dataset never raises and returns exactly the ratio dictionary;
`sdiv` maps every missing numerator or missing/zero denominator to NaN; and
at the dictionary level a missing/zero revenue makes all margin ratios NaN
and a missing share count makes all per-share valuation ratios NaN. -/
theorem C6_ratio_safety_amended (ds : FinancialDataset) (incS bsS cfS : List FinancialStatement)
    (hc : ds.isComplete = true)
    (h1 : dedupStatements ds.income_statements = Except.ok incS)
    (h2 : dedupStatements ds.balance_sheets = Except.ok bsS)
    (h3 : dedupStatements ds.cash_flows = Except.ok cfS) :
    (∃ rs, ratioCalculate ds = Except.ok rs ∧ rs.ratios = ratioDict (ratioBases incS bsS cfS)) ∧
    (∀ a b : PyFloat, (a.isNan || b.isNan || b.isZero) = true → sdiv a b = PyFloat.nan) ∧
    (∀ b : RatioBases, (b.revenue.isNan || b.revenue.isZero) = true →
      (ratioDict b).lookup "net_margin" = some PyFloat.nan ∧
      (ratioDict b).lookup "gross_margin" = some PyFloat.nan ∧
      (ratioDict b).lookup "operating_margin" = some PyFloat.nan ∧
      (ratioDict b).lookup "ebitda_margin" = some PyFloat.nan ∧
      (ratioDict b).lookup "fcf_margin" = some PyFloat.nan ∧
      (ratioDict b).lookup "capex_to_sales" = some PyFloat.nan) ∧
    (∀ b : RatioBases, b.shares_out.isNan = true →
      (ratioDict b).lookup "eps" = some PyFloat.nan ∧
      (ratioDict b).lookup "pe" = some PyFloat.nan ∧
      (ratioDict b).lookup "pb" = some PyFloat.nan ∧
      (ratioDict b).lookup "pcf" = some PyFloat.nan) := by
  refine ⟨?_, ?_, ?_, ?_⟩
  · unfold ratioCalculate
    rw [hc]
    simp only [Bool.not_true, Bool.false_eq_true, if_false, h1, h2, h3, Except.bind]
    exact ⟨_, rfl, rfl⟩
  · intro a b h
    unfold sdiv
    simp [h]
  · intro b h
    have hd : ∀ a : PyFloat, sdiv a b.revenue = PyFloat.nan := fun a =>
      sdiv_nan_denom a b.revenue h
    refine ⟨?_, ?_, ?_, ?_, ?_, ?_⟩
    · rw [show (ratioDict b).lookup "net_margin" = some (sdiv b.net_income b.revenue) from rfl, hd]
    · rw [show (ratioDict b).lookup "gross_margin" = some (sdiv b.gross_profit b.revenue) from rfl, hd]
    · rw [show (ratioDict b).lookup "operating_margin" = some (sdiv b.operating_income b.revenue) from rfl, hd]
    · rw [show (ratioDict b).lookup "ebitda_margin" = some (sdiv b.ebitda b.revenue) from rfl, hd]
    · rw [show (ratioDict b).lookup "fcf_margin" = some (sdiv b.fcf b.revenue) from rfl, hd]
    · rw [show (ratioDict b).lookup "capex_to_sales" = some (sdiv b.capex b.revenue) from rfl, hd]
  · intro b h
    have hd : ∀ a : PyFloat, sdiv a b.shares_out = PyFloat.nan := fun a =>
      sdiv_nan_denom a b.shares_out (by rw [eq_nan_of_isNan _ h]; rfl)
    have hnan : ∀ a : PyFloat, sdiv a PyFloat.nan = PyFloat.nan := fun a =>
      sdiv_nan_denom a PyFloat.nan rfl
    refine ⟨?_, ?_, ?_, ?_⟩
    · rw [show (ratioDict b).lookup "eps" = some (sdiv b.net_income b.shares_out) from rfl, hd]
    · rw [show (ratioDict b).lookup "pe" =
        some (sdiv b.price (sdiv b.net_income b.shares_out)) from rfl, hd, hnan]
    · rw [show (ratioDict b).lookup "pb" =
        some (sdiv b.price (sdiv b.total_equity b.shares_out)) from rfl, hd, hnan]
    · rw [show (ratioDict b).lookup "pcf" =
        some (sdiv b.price (sdiv b.ocf b.shares_out)) from rfl, hd, hnan]

/-- Witness for the amended C6 at the fixture dataset. -/
theorem C6_ratio_safety_amended_witness :
    ∃ rs, ratioCalculate fixtureDataset = Except.ok rs ∧
      rs.ratios = ratioDict (ratioBases [fixtureIncome] [fixtureBalance] [fixtureCashflow]) :=
  (C6_ratio_safety_amended fixtureDataset [fixtureIncome] [fixtureBalance] [fixtureCashflow]
    rfl (by with_unfolding_all rfl) (by with_unfolding_all rfl) (by with_unfolding_all rfl)).1

/-! ### C8 -/

/-- Association-list lookup succeeds exactly when the key occurs. -/
lemma lookup_isSome_iff (l : List (String × MethodVal)) (k : String) :
    (l.lookup k).isSome = true ↔ k ∈ l.map Prod.fst := by
  induction l with
  | nil => simp
  | cons p rest ih =>
    obtain ⟨k1, v⟩ := p
    by_cases hk : k = k1
    · subst hk
      simp [List.lookup, beq_self_eq_true]
    · have hbeq : (k == k1) = false := beq_eq_false_iff_ne.mpr hk
      simp [List.lookup, hbeq, ih, hk]

/-- Membership in the keys of a conditional singleton forces the key and the
guard. -/
lemma mem_keys_opt (c : Bool) (nm k : String) (m : MethodVal) :
    k ∈ (if c then [(nm, m)] else []).map Prod.fst → k = nm ∧ c = true := by
  cases c <;> simp

/-- Optional metric extraction has the NaN-or-rational shape. -/
lemma toFloatOpt_nanOrVal (v : Option ℚ) : NanOrVal (toFloatOpt v) := by
  cases v
  · exact Or.inl rfl
  · exact Or.inr ⟨_, rfl⟩

/-- Every cell of a statement row built by the frame constructor has the
NaN-or-rational shape. -/
lemma lookup_mapped_cells (s : FinancialStatement) (keys : List String) (k : String) :
    NanOrVal (((keys.map fun k2 => (k2, toFloatOpt (s.metrics.lookup k2))).lookup k).getD PyFloat.nan) := by
  induction keys with
  | nil => exact Or.inl rfl
  | cons k1 rest ih =>
    simp only [List.map_cons, List.lookup]
    cases hbeq : (k == k1)
    · exact ih
    · exact toFloatOpt_nanOrVal _

/-- Every cell of a row of a statement frame has the NaN-or-rational shape. -/
lemma frameRow_get_nanOrVal (stmts : List FinancialStatement) (keys : List String)
    (r : Row) (hr : r ∈ frameFromStatements stmts keys) (k : String) :
    NanOrVal (r.get k) := by
  obtain ⟨s, -, rfl⟩ := List.mem_map.mp hr
  exact lookup_mapped_cells s keys k

/-- Sorting by period preserves membership. -/
lemma mem_of_mem_sortByPeriod (rows : List Row) (r : Row) (h : r ∈ sortByPeriod rows) :
    r ∈ rows := by
  rw [sortByPeriod, List.mem_mergeSort] at h
  exact h

/-- The latest row picked by `latestAndPrev` belongs to the input rows. -/
lemma latestAndPrev_fst_mem (rows : List Row) :
    (latestAndPrev rows).1 = none ∨
    ∃ r, (latestAndPrev rows).1 = some r ∧ r ∈ rows := by
  unfold latestAndPrev
  simp only []
  cases hrev : (sortByPeriod rows).reverse with
  | nil => exact Or.inl rfl
  | cons a tl =>
    have ha : a ∈ rows := by
      apply mem_of_mem_sortByPeriod
      rw [← List.mem_reverse, hrev]
      exact List.mem_cons_self a tl
    cases tl with
    | nil => exact Or.inr ⟨a, rfl, ha⟩
    | cons b tl2 => exact Or.inr ⟨a, rfl, ha⟩

/-- Reading any column of the latest row of a frame-derived row set keeps the
NaN-or-rational shape. -/
lemma rowGet_nanOrVal_of_frame (stmts : List FinancialStatement) (keys : List String)
    (rows : List Row) (hsub : ∀ r ∈ rows, r ∈ frameFromStatements stmts keys)
    (k : String) : NanOrVal (rowGet (latestAndPrev rows).1 k) := by
  rcases latestAndPrev_fst_mem rows with h | ⟨r, h, hr⟩
  · rw [h]
    exact Or.inl rfl
  · rw [h]
    exact frameRow_get_nanOrVal stmts keys r (hsub r hr) k

/-- Lookup in a keyed map of shaped values is itself shaped. -/
lemma lookup_keyed_map (V : String → PyFloat) (hV : ∀ k2, NanOrVal (V k2))
    (keys2 : List String) (k : String) :
    NanOrVal (((keys2.map fun k2 => (k2, V k2)).lookup k).getD PyFloat.nan) := by
  induction keys2 with
  | nil => exact Or.inl rfl
  | cons k1 rest ih =>
    simp only [List.map_cons, List.lookup]
    cases k == k1
    · exact ih
    · exact hV k1

/-- Every TTM aggregate over frame rows has the NaN-or-rational shape. -/
lemma ttm_total_nanOrVal (stmts : List FinancialStatement) (keys : List String)
    (rows : List Row) (hsub : ∀ r ∈ rows, r ∈ frameFromStatements stmts keys)
    (keys2 : List String) (k : String) :
    NanOrVal (ttmGet (ttmFromDf rows keys2).1 k) := by
  unfold ttmFromDf ttmGet
  simp only []
  cases hdesc : sortByPeriodDesc rows with
  | nil => exact Or.inl rfl
  | cons first rest =>
    have hfirst : first ∈ frameFromStatements stmts keys := by
      apply hsub
      have hm : first ∈ sortByPeriodDesc rows := by
        rw [hdesc]
        exact List.mem_cons_self first rest
      rw [sortByPeriodDesc, List.mem_mergeSort] at hm
      exact hm
    by_cases hsingle : ((((first :: rest).take 4).map fun r => r.period.m).all (· == 12)
        || ((first :: rest).take 4).length == 1) = true
    · simp only [hdesc, hsingle, if_true]
      exact lookup_keyed_map _ (fun k2 => frameRow_get_nanOrVal stmts keys first hfirst k2) keys2 k
    · simp only [hdesc, eq_false_of_ne_true hsingle, if_false]
      refine lookup_keyed_map _ (fun k2 => ?_) keys2 k
      by_cases hempty : ((((first :: rest).take 4).map fun r => r.get k2).filter
          (fun v => !v.isNan)).isEmpty = true
      · simp only [hempty, if_true]
        exact Or.inl rfl
      · simp only [eq_false_of_ne_true hempty, if_false]
        exact Or.inr ⟨_, rfl⟩

/-- The EBITDA base metric of the valuation engine has the NaN-or-rational
shape. -/
lemma vEbitda_nanOrVal (incS : List FinancialStatement) : NanOrVal (vEbitda incS) := by
  unfold vEbitda valIncTtm valLatestInc valIncDf
  split
  · exact rowGet_nanOrVal_of_frame incS valIncKeys _
      (fun r hr => mem_of_mem_sortByPeriod _ r hr) "ebitda"
  · exact ttm_total_nanOrVal incS valIncKeys _
      (fun r hr => mem_of_mem_sortByPeriod _ r hr) valIncKeys "ebitda"

/-- The revenue base metric of the valuation engine has the NaN-or-rational
shape. -/
lemma vRevenue_nanOrVal (incS : List FinancialStatement) : NanOrVal (vRevenue incS) := by
  unfold vRevenue valIncTtm valLatestInc valIncDf
  split
  · exact rowGet_nanOrVal_of_frame incS valIncKeys _
      (fun r hr => mem_of_mem_sortByPeriod _ r hr) "revenue"
  · exact ttm_total_nanOrVal incS valIncKeys _
      (fun r hr => mem_of_mem_sortByPeriod _ r hr) valIncKeys "revenue"

/-- A shaped value that is neither NaN nor at most zero is strictly
positive. -/
lemma notNan_ple_false_pgt (v : PyFloat) (hshape : NanOrVal v)
    (hnan : v.isNan = false) (hple : v.ple (PyFloat.val 0) = false) :
    v.pgt (PyFloat.val 0) = true := by
  rcases hshape with rfl | ⟨q, rfl⟩
  · simp [PyFloat.isNan] at hnan
  · simp only [PyFloat.ple, decide_eq_false_iff_not, not_le] at hple
    simpa [PyFloat.pgt] using hple

/-- C8: whenever any of the relative valuation methods `pe_band`,
`ev_ebitda`, `pb_band` or `ev_sales` is present in `valuation_methods`, the
corresponding base metric (EPS, EBITDA, book value per share, revenue) is
strictly positive (and in particular finite and non-NaN); conversely a
non-positive or missing base metric leaves the method key entirely absent. -/
theorem C8_relative_method_presence (incS bsS cfS : List FinancialStatement)
    (o hints dd : List (String × ℚ)) :
    ((((valuationCompute incS bsS cfS o hints dd).valuation_methods.lookup "pe_band").isSome = true →
      (vEps incS bsS).pgt (val 0) = true) ∧
    (((valuationCompute incS bsS cfS o hints dd).valuation_methods.lookup "ev_ebitda").isSome = true →
      (vEbitda incS).pgt (val 0) = true) ∧
    (((valuationCompute incS bsS cfS o hints dd).valuation_methods.lookup "pb_band").isSome = true →
      (vBookPerShare bsS).pgt (val 0) = true) ∧
    (((valuationCompute incS bsS cfS o hints dd).valuation_methods.lookup "ev_sales").isSome = true →
      (vRevenue incS).pgt (val 0) = true)) := by
  refine ⟨fun hp => ?_, fun hp => ?_, fun hp => ?_, fun hp => ?_⟩ <;>
    (rw [lookup_isSome_iff] at hp
     unfold valuationCompute at hp
     simp only [List.map_append, List.mem_append] at hp
     rcases hp with ((((h0 | hpe) | hev) | hpb) | hes) | hscen)
  case _ => exact absurd (mem_keys_opt _ _ _ _ h0).1 (by decide)
  case _ =>
    obtain ⟨-, hg⟩ := mem_keys_opt _ _ _ _ hpe
    simp only [Bool.and_eq_true] at hg
    exact hg.1.2
  case _ => exact absurd (mem_keys_opt _ _ _ _ hev).1 (by decide)
  case _ => exact absurd (mem_keys_opt _ _ _ _ hpb).1 (by decide)
  case _ => exact absurd (mem_keys_opt _ _ _ _ hes).1 (by decide)
  case _ => exact absurd (mem_keys_opt _ _ _ _ hscen).1 (by decide)
  case _ => exact absurd (mem_keys_opt _ _ _ _ h0).1 (by decide)
  case _ => exact absurd (mem_keys_opt _ _ _ _ hpe).1 (by decide)
  case _ =>
    obtain ⟨-, hg⟩ := mem_keys_opt _ _ _ _ hev
    have hg2 : ((vEbitda incS).isNan || (vEbitda incS).ple (val 0)
        || (vNetDebt bsS).isNan || (vShares bsS).isNan) = false := by
      simpa using hg
    simp only [Bool.or_eq_false_iff] at hg2
    exact notNan_ple_false_pgt _ (vEbitda_nanOrVal incS) hg2.1.1.1 hg2.1.1.2
  case _ => exact absurd (mem_keys_opt _ _ _ _ hpb).1 (by decide)
  case _ => exact absurd (mem_keys_opt _ _ _ _ hes).1 (by decide)
  case _ => exact absurd (mem_keys_opt _ _ _ _ hscen).1 (by decide)
  case _ => exact absurd (mem_keys_opt _ _ _ _ h0).1 (by decide)
  case _ => exact absurd (mem_keys_opt _ _ _ _ hpe).1 (by decide)
  case _ => exact absurd (mem_keys_opt _ _ _ _ hev).1 (by decide)
  case _ =>
    obtain ⟨-, hg⟩ := mem_keys_opt _ _ _ _ hpb
    simp only [Bool.and_eq_true] at hg
    exact hg.2
  case _ => exact absurd (mem_keys_opt _ _ _ _ hes).1 (by decide)
  case _ => exact absurd (mem_keys_opt _ _ _ _ hscen).1 (by decide)
  case _ => exact absurd (mem_keys_opt _ _ _ _ h0).1 (by decide)
  case _ => exact absurd (mem_keys_opt _ _ _ _ hpe).1 (by decide)
  case _ => exact absurd (mem_keys_opt _ _ _ _ hev).1 (by decide)
  case _ => exact absurd (mem_keys_opt _ _ _ _ hpb).1 (by decide)
  case _ =>
    obtain ⟨-, hg⟩ := mem_keys_opt _ _ _ _ hes
    have hg2 : ((vRevenue incS).isNan || (vRevenue incS).ple (val 0)
        || (vNetDebt bsS).isNan || (vShares bsS).isNan || (vShares bsS).isZero) = false := by
      simpa using hg
    simp only [Bool.or_eq_false_iff] at hg2
    exact notNan_ple_false_pgt _ (vRevenue_nanOrVal incS) hg2.1.1.1.1 hg2.1.1.1.2
  case _ => exact absurd (mem_keys_opt _ _ _ _ hscen).1 (by decide)

/-- Witness for C8 at the fixture statements: the `pe_band` method is present
and the theorem yields strictly positive EPS. -/
theorem C8_relative_method_presence_witness :
    (((valuationCompute [fixtureIncome] [fixtureBalance] [fixtureCashflow] [] [] []).valuation_methods.lookup "pe_band").isSome = true) ∧
    (vEps [fixtureIncome] [fixtureBalance]).pgt (val 0) = true :=
  ⟨by with_unfolding_all rfl,
   (C8_relative_method_presence [fixtureIncome] [fixtureBalance] [fixtureCashflow] [] [] []).1
     (by with_unfolding_all rfl)⟩

/-! ### C10 -/

/-- Market-cap fallback preserves the NaN-or-rational shape. -/
lemma marketCapOf_nanOrVal (mc price shares : PyFloat) (h : NanOrVal mc) :
    NanOrVal (marketCapOf mc price shares) := by
  unfold marketCapOf
  split
  · exact Or.inr ⟨_, rfl⟩
  · exact h

/-- The market-cap base quantity of the ratio calculator has the
NaN-or-rational shape. -/
lemma ratioBases_market_cap_nanOrVal (incS bsS cfS : List FinancialStatement) :
    NanOrVal ((ratioBases incS bsS cfS).market_cap) := by
  have heq : (ratioBases incS bsS cfS).market_cap =
      marketCapOf
        (rowGet (latestAndPrev (sortByPeriod (frameFromStatements bsS ratioBsKeys))).1 "market_cap")
        (rowGet (latestAndPrev (sortByPeriod (frameFromStatements bsS ratioBsKeys))).1 "price")
        (rowGet (latestAndPrev (sortByPeriod (frameFromStatements bsS ratioBsKeys))).1 "shares_outstanding") := rfl
  rw [heq]
  exact marketCapOf_nanOrVal _ _ _
    (rowGet_nanOrVal_of_frame bsS ratioBsKeys _
      (fun r hr => mem_of_mem_sortByPeriod _ r hr) "market_cap")

/-- C10: on a complete dataset whose deduplication succeeds, when market
capitalization is known (directly or as price times shares outstanding) but
net debt is undefined, `RatioCalculator.calculate` computes `ev_over_ebitda`
and `ev_over_sales` with net debt treated as zero — enterprise value equals
market cap alone — rather than yielding NaN. -/
theorem C10_ev_ratios_zero_net_debt_fallback (ds : FinancialDataset)
    (incS bsS cfS : List FinancialStatement)
    (hc : ds.isComplete = true)
    (h1 : dedupStatements ds.income_statements = Except.ok incS)
    (h2 : dedupStatements ds.balance_sheets = Except.ok bsS)
    (h3 : dedupStatements ds.cash_flows = Except.ok cfS)
    (hmc : (ratioBases incS bsS cfS).market_cap.isNan = false)
    (hnd : (ratioBases incS bsS cfS).net_debt.isNan = true) :
    ∃ rs, ratioCalculate ds = Except.ok rs ∧
      rs.ratios.lookup "ev_over_ebitda" =
        some (sdiv (ratioBases incS bsS cfS).market_cap (ratioBases incS bsS cfS).ebitda) ∧
      rs.ratios.lookup "ev_over_sales" =
        some (sdiv (ratioBases incS bsS cfS).market_cap (ratioBases incS bsS cfS).revenue) := by
  obtain ⟨q, hq⟩ : ∃ q, (ratioBases incS bsS cfS).market_cap = PyFloat.val q := by
    rcases ratioBases_market_cap_nanOrVal incS bsS cfS with h | h
    · rw [h] at hmc
      simp [PyFloat.isNan] at hmc
    · exact h
  have hndeq : (ratioBases incS bsS cfS).net_debt = PyFloat.nan := eq_nan_of_isNan _ hnd
  unfold ratioCalculate
  rw [hc]
  simp only [Bool.not_true, Bool.false_eq_true, if_false, h1, h2, h3, Except.bind]
  refine ⟨_, rfl, ?_, ?_⟩
  · show (ratioDict (ratioBases incS bsS cfS)).lookup "ev_over_ebitda" =
      some (sdiv (ratioBases incS bsS cfS).market_cap (ratioBases incS bsS cfS).ebitda)
    have hlook : (ratioDict (ratioBases incS bsS cfS)).lookup "ev_over_ebitda" =
        some (if !(ratioBases incS bsS cfS).market_cap.isNan
          then sdiv ((ratioBases incS bsS cfS).market_cap.padd
            (ratioBases incS bsS cfS).net_debt.orZero) (ratioBases incS bsS cfS).ebitda
          else PyFloat.nan) := rfl
    rw [hlook, hndeq, hq]
    simp [PyFloat.padd, PyFloat.orZero, PyFloat.isNan]
  · show (ratioDict (ratioBases incS bsS cfS)).lookup "ev_over_sales" =
      some (sdiv (ratioBases incS bsS cfS).market_cap (ratioBases incS bsS cfS).revenue)
    have hlook : (ratioDict (ratioBases incS bsS cfS)).lookup "ev_over_sales" =
        some (if !(ratioBases incS bsS cfS).market_cap.isNan
          then sdiv ((ratioBases incS bsS cfS).market_cap.padd
            (ratioBases incS bsS cfS).net_debt.orZero) (ratioBases incS bsS cfS).revenue
          else PyFloat.nan) := rfl
    rw [hlook, hndeq, hq]
    simp [PyFloat.padd, PyFloat.orZero, PyFloat.isNan]

/-- Witness for C10 at a concrete dataset with derivable market cap and
missing net debt. -/
theorem C10_ev_ratios_zero_net_debt_fallback_witness :
    ∃ rs, ratioCalculate c10Dataset = Except.ok rs ∧
      rs.ratios.lookup "ev_over_ebitda" =
        some (sdiv (ratioBases [fixtureIncome] [c10Balance] [fixtureCashflow]).market_cap
          (ratioBases [fixtureIncome] [c10Balance] [fixtureCashflow]).ebitda) ∧
      rs.ratios.lookup "ev_over_sales" =
        some (sdiv (ratioBases [fixtureIncome] [c10Balance] [fixtureCashflow]).market_cap
          (ratioBases [fixtureIncome] [c10Balance] [fixtureCashflow]).revenue) :=
  C10_ev_ratios_zero_net_debt_fallback c10Dataset
    [fixtureIncome] [c10Balance] [fixtureCashflow] rfl
    (by with_unfolding_all rfl) (by with_unfolding_all rfl) (by with_unfolding_all rfl)
    (by with_unfolding_all rfl) (by with_unfolding_all rfl)
